import Mathlib

/-!
# Charity House: registration workflow and admin mutations

A shallow embedding of the request handlers of `src/server.js` that write to the
relational store: `POST /api/events/:id/register`, `POST /api/admin/events`,
`PUT /api/admin/events/:id` and `DELETE /api/admin/events/:id`.

Modelling choices.

* The store is the pair of tables `events` and `event_registrations`, each a list of
  rows in insertion order. A handler is a function from the store before the request
  to an `Outcome`: the store after it, the HTTP response, and the store round-trips
  (`db.query`, `db.beginTransaction`, `db.commit`, `db.rollback`) it issued, in order.
* The callbacks of a handler run one after the other; every `if (err)` branch of the
  source is kept. Which round-trip reports an error is decided by the environment
  (`Env.fails`); a failing statement changes no row. `db.rollback` restores the
  tables to what they were at `db.beginTransaction`.
* The identity the store assigns to an inserted row (`insertId`) is supplied by the
  environment.
* Request bodies are typed records: a field is absent (`none`) or carries a value of
  its column type. JavaScript truthiness (`!x`, `x || d`, `x && y`) is modelled on
  these types: the empty string and the number zero are falsy.
* The route parameter `:id` is identified with the integer the store compares the
  `id` column with.
* The search route `GET /api/events/search` is embedded with the `LIKE` operator of
  the store (`%`, `_` and the escape character); strings are compared character by
  character, and dates, written year first, are ordered as strings.
* Sequences of requests are lists of requests with their environments, run one after
  the other from the empty store. Two register requests in flight are modelled by a
  step function that performs one store round-trip and its callback, the two
  requests sharing the store of the single connection.
-/

namespace CharityHouse

/-! ## Data model -/

/-- Row of the `events` table (the thirteen columns written by the create statement,
plus the identity). -/
structure Event where
  id : Nat
  name : String
  category : String
  date : String
  time : Option String
  location : String
  organizer : Option String
  max_participants : Option Int
  registration_fee : Int
  contact_info : Option String
  status : String
  description : Option String
  image_url : Option String
  current_participants : Int
deriving DecidableEq, Repr

/-- Row of the `event_registrations` table (the eight columns written by the insert
statement of the register handler, plus the identity). -/
structure Registration where
  id : Nat
  event_id : Nat
  participant_name : String
  participant_phone : String
  participant_email : String
  participant_age : String
  volunteer_experience : String
  motivation : String
  allow_contact : Bool
deriving DecidableEq, Repr

/-- The persisted state: the two tables. -/
structure Store where
  events : List Event
  registrations : List Registration
deriving DecidableEq, Repr

/-- The store round-trips issued by the handlers, named after the query constants of
`server.js`. -/
inductive StoreCall where
  | checkEventQuery
  | checkRegistrationQuery
  | beginTransaction
  | insertRegistrationQuery
  | updateParticipantsQuery
  | commit
  | rollback
  | insertEventQuery
  | updateEventQuery
  | deleteRegistrationsQuery
  | deleteEventQuery
deriving DecidableEq, Repr

/-- What the handler does not control: which round-trips report an error, and the
identity the store gives to an inserted row. -/
structure Env where
  fails : StoreCall → Bool
  insertId : Nat

/-- JSON body of a response. -/
inductive ResBody where
  | error (error : String)
  | registered (message : String) (registrationId : Nat)
  | created (message : String) (id : Nat)
  | message (message : String)
deriving DecidableEq, Repr

/-- HTTP response: status code (`res.json` alone answers 200) and body. -/
structure Response where
  status : Nat
  body : ResBody
deriving DecidableEq, Repr

/-- Result of handling one request. -/
structure Outcome where
  store : Store
  response : Response
  calls : List StoreCall
deriving DecidableEq, Repr

/-- Body of `POST /api/events/:id/register` (the seven destructured fields). -/
structure RegisterBody where
  name : Option String
  phone : Option String
  email : Option String
  age : Option String
  experience : Option String
  motivation : Option String
  allowContact : Option Bool
deriving DecidableEq, Repr

/-- Body of `POST /api/admin/events` and `PUT /api/admin/events/:id`: the twelve
destructured fields, and a `current_participants` field that a client may send but
that the handlers never read. -/
structure EventBody where
  name : Option String
  category : Option String
  date : Option String
  time : Option String
  location : Option String
  organizer : Option String
  max_participants : Option Int
  registration_fee : Option Int
  contact_info : Option String
  status : Option String
  description : Option String
  image_url : Option String
  current_participants : Option Int
deriving DecidableEq, Repr

/-! ## JavaScript truthiness on typed fields -/

/-- Truthiness of a string-valued field: absent and the empty string are falsy. -/
def truthyStr : Option String → Bool
  | some v => v != ""
  | none => false

/-- Truthiness of a number-valued field: absent and zero are falsy. -/
def truthyNum : Option Int → Bool
  | some n => n != 0
  | none => false

/-- The expression `x || null` on a string field. -/
def orNullStr (x : Option String) : Option String :=
  if truthyStr x then x else none

/-- The expression `x || null` on a number field. -/
def orNullNum (x : Option Int) : Option Int :=
  if truthyNum x then x else none

/-- The expression `x || d` on a string field, `d` a string literal. -/
def orStr (x : Option String) (d : String) : String :=
  match x with
  | some v => if v != "" then v else d
  | none => d

/-- The expression `x || d` on a number field, `d` a number literal. -/
def orNum (x : Option Int) (d : Int) : Int :=
  match x with
  | some n => if n != 0 then n else d
  | none => d

/-! ## Store statements -/

/-- Statement `SELECT max_participants, current_participants FROM events WHERE id = ?` -/
def checkEventQuery (s : Store) (eventId : Nat) : List Event :=
  s.events.filter (fun e => e.id == eventId)

/-- Statement `SELECT id FROM event_registrations WHERE event_id = ? AND participant_phone = ?` -/
def checkRegistrationQuery (s : Store) (eventId : Nat) (phone : String) : List Registration :=
  s.registrations.filter (fun r => r.event_id == eventId && r.participant_phone == phone)

/-- Statement `INSERT INTO event_registrations (...) VALUES (?, ?, ?, ?, ?, ?, ?, ?)` -/
def insertRegistrationQuery (s : Store) (row : Registration) : Store :=
  { s with registrations := s.registrations ++ [row] }

/-- Statement `UPDATE events SET current_participants = current_participants + 1 WHERE id = ?` -/
def updateParticipantsQuery (s : Store) (eventId : Nat) : Store :=
  { s with events := s.events.map (fun e =>
      if e.id == eventId then { e with current_participants := e.current_participants + 1 }
      else e) }

/-- The test `event.max_participants && event.current_participants >= event.max_participants`. -/
def eventFull (event : Event) : Bool :=
  match event.max_participants with
  | some m => m != 0 && decide (event.current_participants ≥ m)
  | none => false

/-! ## `POST /api/events/:id/register` -/

/-- The row the register handler inserts: the event id and the destructured fields,
`email`, `age`, `experience`, `motivation` defaulting to the empty string and
`allowContact` to false. -/
def registrationRow (insertId eventId : Nat) (body : RegisterBody) : Registration :=
  { id := insertId
    event_id := eventId
    participant_name := body.name.getD ""
    participant_phone := body.phone.getD ""
    participant_email := body.email.getD ""
    participant_age := body.age.getD ""
    volunteer_experience := body.experience.getD ""
    motivation := body.motivation.getD ""
    allow_contact := body.allowContact.getD false }

/-- The handler of `app.post('/api/events/:id/register')`. -/
def postRegister (env : Env) (s : Store) (eventId : Nat) (body : RegisterBody) : Outcome :=
  if !truthyStr body.name || !truthyStr body.phone then
    ⟨s, ⟨400, .error "姓名和联系电话为必填项"⟩, []⟩
  else if env.fails .checkEventQuery then
    ⟨s, ⟨500, .error "服务器内部错误"⟩, [.checkEventQuery]⟩
  else
    match checkEventQuery s eventId with
    | [] => ⟨s, ⟨404, .error "活动不存在"⟩, [.checkEventQuery]⟩
    | event :: _ =>
      if eventFull event then
        ⟨s, ⟨400, .error "活动名额已满"⟩, [.checkEventQuery]⟩
      else if env.fails .checkRegistrationQuery then
        ⟨s, ⟨500, .error "服务器内部错误"⟩, [.checkEventQuery, .checkRegistrationQuery]⟩
      else if (checkRegistrationQuery s eventId (body.phone.getD "")).length > 0 then
        ⟨s, ⟨400, .error "您已经注册过此活动"⟩, [.checkEventQuery, .checkRegistrationQuery]⟩
      else if env.fails .beginTransaction then
        ⟨s, ⟨500, .error "注册失败"⟩,
          [.checkEventQuery, .checkRegistrationQuery, .beginTransaction]⟩
      else if env.fails .insertRegistrationQuery then
        ⟨s, ⟨500, .error "注册失败"⟩,
          [.checkEventQuery, .checkRegistrationQuery, .beginTransaction,
           .insertRegistrationQuery, .rollback]⟩
      else
        let s1 := insertRegistrationQuery s (registrationRow env.insertId eventId body)
        if env.fails .updateParticipantsQuery then
          ⟨s, ⟨500, .error "注册失败"⟩,
            [.checkEventQuery, .checkRegistrationQuery, .beginTransaction,
             .insertRegistrationQuery, .updateParticipantsQuery, .rollback]⟩
        else
          let s2 := updateParticipantsQuery s1 eventId
          if env.fails .commit then
            ⟨s, ⟨500, .error "注册失败"⟩,
              [.checkEventQuery, .checkRegistrationQuery, .beginTransaction,
               .insertRegistrationQuery, .updateParticipantsQuery, .commit, .rollback]⟩
          else
            ⟨s2, ⟨200, .registered "注册成功！" env.insertId⟩,
              [.checkEventQuery, .checkRegistrationQuery, .beginTransaction,
               .insertRegistrationQuery, .updateParticipantsQuery, .commit]⟩

/-! ## `POST /api/admin/events` -/

/-- The test `!name || !category || !date || !location` of the create and update
handlers. -/
def missingRequired (body : EventBody) : Bool :=
  !truthyStr body.name || !truthyStr body.category || !truthyStr body.date ||
    !truthyStr body.location

/-- The row written by the create statement: the twelve bound parameters, in the
order of the source, and the literal `0` for `current_participants`. -/
def createdRow (insertId : Nat) (body : EventBody) : Event :=
  { id := insertId
    name := body.name.getD ""
    category := body.category.getD ""
    date := body.date.getD ""
    time := orNullStr body.time
    location := body.location.getD ""
    organizer := orNullStr body.organizer
    max_participants := orNullNum body.max_participants
    registration_fee := orNum body.registration_fee 0
    contact_info := orNullStr body.contact_info
    status := orStr body.status "upcoming"
    description := orNullStr body.description
    image_url := orNullStr body.image_url
    current_participants := 0 }

/-- Statement `INSERT INTO events (...) VALUES (?, ?, ?, ?, ?, ?, ?, ?, ?, ?, ?, ?, 0)` -/
def insertEventQuery (s : Store) (row : Event) : Store :=
  { s with events := s.events ++ [row] }

/-- The handler of `app.post('/api/admin/events')`. -/
def postAdminEvents (env : Env) (s : Store) (body : EventBody) : Outcome :=
  if missingRequired body then
    ⟨s, ⟨400, .error "活动名称、类别、日期和地点为必填项"⟩, []⟩
  else if env.fails .insertEventQuery then
    ⟨s, ⟨500, .error "创建活动失败"⟩, [.insertEventQuery]⟩
  else
    ⟨insertEventQuery s (createdRow env.insertId body),
      ⟨200, .created "活动创建成功" env.insertId⟩, [.insertEventQuery]⟩

/-! ## `PUT /api/admin/events/:id` -/

/-- The twelve assignments of the update statement applied to one row; `id` and
`current_participants` are not in the `SET` list. -/
def updatedRow (e : Event) (body : EventBody) : Event :=
  { e with
    name := body.name.getD ""
    category := body.category.getD ""
    date := body.date.getD ""
    time := orNullStr body.time
    location := body.location.getD ""
    organizer := orNullStr body.organizer
    max_participants := orNullNum body.max_participants
    registration_fee := orNum body.registration_fee 0
    contact_info := orNullStr body.contact_info
    status := orStr body.status "upcoming"
    description := orNullStr body.description
    image_url := orNullStr body.image_url }

/-- Statement `UPDATE events SET name = ?, ..., image_url = ? WHERE id = ?` -/
def updateEventQuery (s : Store) (eventId : Nat) (body : EventBody) : Store :=
  { s with events := s.events.map (fun e =>
      if e.id == eventId then updatedRow e body else e) }

/-- The `affectedRows` of a statement with `WHERE id = ?` on `events`: the number of
rows it matches. -/
def affectedRows (s : Store) (eventId : Nat) : Nat :=
  (s.events.filter (fun e => e.id == eventId)).length

/-- The handler of `app.put('/api/admin/events/:id')`. -/
def putAdminEvent (env : Env) (s : Store) (eventId : Nat) (body : EventBody) : Outcome :=
  if missingRequired body then
    ⟨s, ⟨400, .error "活动名称、类别、日期和地点为必填项"⟩, []⟩
  else if env.fails .updateEventQuery then
    ⟨s, ⟨500, .error "更新活动失败"⟩, [.updateEventQuery]⟩
  else if affectedRows s eventId == 0 then
    ⟨updateEventQuery s eventId body, ⟨404, .error "活动不存在"⟩, [.updateEventQuery]⟩
  else
    ⟨updateEventQuery s eventId body, ⟨200, .message "活动更新成功"⟩, [.updateEventQuery]⟩

/-! ## `DELETE /api/admin/events/:id` -/

/-- Statement `DELETE FROM event_registrations WHERE event_id = ?` -/
def deleteRegistrationsQuery (s : Store) (eventId : Nat) : Store :=
  { s with registrations := s.registrations.filter (fun r => !(r.event_id == eventId)) }

/-- Statement `DELETE FROM events WHERE id = ?` -/
def deleteEventQuery (s : Store) (eventId : Nat) : Store :=
  { s with events := s.events.filter (fun e => !(e.id == eventId)) }

/-- The handler of `app.delete('/api/admin/events/:id')`. -/
def deleteAdminEvent (env : Env) (s : Store) (eventId : Nat) : Outcome :=
  if env.fails .beginTransaction then
    ⟨s, ⟨500, .error "删除活动失败"⟩, [.beginTransaction]⟩
  else if env.fails .deleteRegistrationsQuery then
    ⟨s, ⟨500, .error "删除活动失败"⟩,
      [.beginTransaction, .deleteRegistrationsQuery, .rollback]⟩
  else
    let s1 := deleteRegistrationsQuery s eventId
    if env.fails .deleteEventQuery then
      ⟨s, ⟨500, .error "删除活动失败"⟩,
        [.beginTransaction, .deleteRegistrationsQuery, .deleteEventQuery, .rollback]⟩
    else
      let s2 := deleteEventQuery s1 eventId
      if affectedRows s1 eventId == 0 then
        ⟨s, ⟨404, .error "活动不存在"⟩,
          [.beginTransaction, .deleteRegistrationsQuery, .deleteEventQuery, .rollback]⟩
      else if env.fails .commit then
        ⟨s, ⟨500, .error "删除活动失败"⟩,
          [.beginTransaction, .deleteRegistrationsQuery, .deleteEventQuery, .commit,
           .rollback]⟩
      else
        ⟨s2, ⟨200, .message "活动删除成功"⟩,
          [.beginTransaction, .deleteRegistrationsQuery, .deleteEventQuery, .commit]⟩

/-! ## Environments and sample data -/

/-- The environment in which no round-trip fails and the store assigns `insertId`. -/
def Env.ok (insertId : Nat) : Env :=
  { fails := fun _ => false, insertId := insertId }

/-- The environment in which exactly the round-trip `c` fails. -/
def Env.failing (c : StoreCall) (insertId : Nat) : Env :=
  { fails := fun d => decide (d = c), insertId := insertId }

/-- An event row with the given identity, capacity and counter. -/
def sampleEvent (id : Nat) (max : Option Int) (current : Int) : Event :=
  { id := id, name := "Run", category := "sport", date := "2025-10-01", time := none,
    location := "park", organizer := none, max_participants := max, registration_fee := 0,
    contact_info := none, status := "upcoming", description := none, image_url := none,
    current_participants := current }

/-- A register body with only the two required fields. -/
def sampleBody (name phone : String) : RegisterBody :=
  { name := some name, phone := some phone, email := none, age := none,
    experience := none, motivation := none, allowContact := none }

/-- A create or update body with only the four required fields. -/
def sampleEventBody : EventBody :=
  { name := some "Run", category := some "sport", date := some "2025-10-01", time := none,
    location := some "park", organizer := none, max_participants := none,
    registration_fee := none, contact_info := none, status := none, description := none,
    image_url := none, current_participants := none }

/-- The environment in which every round-trip fails. -/
def Env.down : Env :=
  { fails := fun _ => true, insertId := 0 }

/-- The invariant of the registration table: no two rows share both the event and
the phone. -/
def UniquePhones (s : Store) : Prop :=
  s.registrations.Pairwise (fun a b =>
    ¬ (a.event_id = b.event_id ∧ a.participant_phone = b.participant_phone))

instance decidableUniquePhones (s : Store) : Decidable (UniquePhones s) := by
  unfold UniquePhones
  infer_instance

/-- The counter increment of the register handler applied to one row. -/
def bumped (e : Event) : Event :=
  { e with current_participants := e.current_participants + 1 }

/-- The capacity scenario: one event with a single place, nobody registered. -/
def scenarioStore : Store :=
  ⟨[sampleEvent 1 (some 1) 0], []⟩

/-- First request of the capacity scenario. -/
def scenarioFirst : Outcome :=
  postRegister (Env.ok 7) scenarioStore 1 (sampleBody "A" "111")

/-- Second request of the capacity scenario: another phone, same event. -/
def scenarioSecond : Outcome :=
  postRegister (Env.ok 8) scenarioFirst.store 1 (sampleBody "B" "222")

/-- An event without limit on which phone 111 is registered once. -/
def registeredStore : Store :=
  ⟨[sampleEvent 1 none 1], [registrationRow 7 1 (sampleBody "A" "111")]⟩

/-- An event with one place, taken by phone 111. -/
def fullStore : Store :=
  ⟨[sampleEvent 1 (some 1) 1], [registrationRow 7 1 (sampleBody "A" "111")]⟩

/-- Two events without limit, one registration on each. -/
def twoEventStore : Store :=
  ⟨[sampleEvent 1 none 1, sampleEvent 2 none 1],
    [registrationRow 7 1 (sampleBody "A" "111"), registrationRow 8 2 (sampleBody "B" "222")]⟩

/-- A create or update body that supplies a capacity of zero and an empty description. -/
def zeroCapacityBody : EventBody :=
  { sampleEventBody with max_participants := some 0, description := some "" }

/-- A create or update body that supplies every field, and a participant counter. -/
def fullEventBody : EventBody :=
  { name := some "Gala", category := some "fundraising", date := some "2025-12-24",
    time := some "18:00", location := some "hall", organizer := some "Charity House",
    max_participants := some 50, registration_fee := some 20, contact_info := some "a@b.org",
    status := some "ongoing", description := some "dinner", image_url := some "/img/1.png",
    current_participants := some 5 }

/-- The row that `fullEventBody` describes, under identity 3 and with the given counter. -/
def galaEvent (current : Int) : Event :=
  { id := 3, name := "Gala", category := "fundraising", date := "2025-12-24",
    time := some "18:00", location := "hall", organizer := some "Charity House",
    max_participants := some 50, registration_fee := 20, contact_info := some "a@b.org",
    status := "ongoing", description := some "dinner", image_url := some "/img/1.png",
    current_participants := current }

/-- Two events, the second with identity 3 and a capacity of 10, and one registration
on the first. -/
def galaStore : Store :=
  ⟨[sampleEvent 1 none 1, sampleEvent 3 (some 10) 2],
    [registrationRow 7 1 (sampleBody "A" "111")]⟩

/-! ## `GET /api/events/search` -/

/-- Query string of the search route (the three destructured fields). -/
structure SearchQuery where
  date : Option String
  location : Option String
  category : Option String
deriving DecidableEq, Repr

/-- Answer of the search route: the rows found, or an error message. -/
inductive SearchResponse where
  | rows (status : Nat) (events : List Event)
  | error (status : Nat) (error : String)
deriving DecidableEq, Repr

/-- The escape character of a `LIKE` pattern, the backslash. -/
def escapeChar : Char := Char.ofNat 92

/-- The units of a `LIKE` pattern: `%`, `_`, and a character that stands for itself. -/
inductive LikeToken where
  | anyRun
  | anyOne
  | lit (c : Char)
deriving DecidableEq, Repr

/-- Reading of a `LIKE` pattern, left to right: `%` stands for any run of characters,
`_` for any one character, the escape character makes the character after it
literal, every other character stands for itself. `escaped` tells whether the
character before was the escape character. -/
def likeTokens : Bool → List Char → List LikeToken
  | escaped, [] => if escaped then [.lit escapeChar] else []
  | true, c :: p => .lit c :: likeTokens false p
  | false, c :: p =>
    if c = '%' then .anyRun :: likeTokens false p
    else if c = '_' then .anyOne :: likeTokens false p
    else if c = escapeChar then likeTokens true p
    else .lit c :: likeTokens false p

/-- Whether a value matches a tokenised pattern. -/
def matchTokens : List LikeToken → List Char → Bool
  | [], v => v.isEmpty
  | .anyRun :: ts, v => v.tails.any (fun t => matchTokens ts t)
  | .anyOne :: _, [] => false
  | .anyOne :: ts, _ :: t => matchTokens ts t
  | .lit _ :: _, [] => false
  | .lit c :: ts, d :: t => c == d && matchTokens ts t

/-- The operator `LIKE` of the store on a pattern and a value. -/
def likeMatch (pattern value : List Char) : Bool :=
  matchTokens (likeTokens false pattern) value

/-- The conditions appended to `WHERE 1=1`, one for each truthy query field; the
location parameter is the template literal with a `%` on each side. -/
def searchConditions (q : SearchQuery) : List (Event → Bool) :=
  (if truthyStr q.date then [fun e => e.date == q.date.getD ""] else []) ++
  (if truthyStr q.location then
    [fun e => likeMatch ("%" ++ q.location.getD "" ++ "%").toList e.location.toList]
   else []) ++
  (if truthyStr q.category then [fun e => e.category == q.category.getD ""] else [])

/-- Lexicographic comparison of two lists of character codes. -/
def lexLe : List Nat → List Nat → Bool
  | [], _ => true
  | _ :: _, [] => false
  | a :: as, b :: bs => decide (a < b) || (a == b && lexLe as bs)

/-- The order of `ORDER BY date ASC`, on dates written year first. -/
def dateLe (a b : Event) : Prop :=
  lexLe (a.date.toList.map Char.toNat) (b.date.toList.map Char.toNat) = true

instance decidableDateLe : DecidableRel dateLe := fun a b => by
  unfold dateLe
  infer_instance

/-- The statement built by the search route, run on the store. -/
def searchQuery (s : Store) (q : SearchQuery) : List Event :=
  (s.events.filter (fun e => (searchConditions q).all (fun c => c e))).insertionSort dateLe

/-- The handler of `app.get('/api/events/search')`; `err` tells whether the store
reports an error for the statement. -/
def getEventsSearch (err : Bool) (s : Store) (q : SearchQuery) : SearchResponse :=
  if err then .error 500 "服务器内部错误" else .rows 200 (searchQuery s q)

/-- An event row with the given identity, category, date and location. -/
def listedEvent (id : Nat) (category date location : String) : Event :=
  { sampleEvent id none 0 with category := category, date := date, location := location }

/-- Four events: two on education, in a park and in a hall; two on sport, in parks. -/
def searchStore : Store :=
  ⟨[listedEvent 1 "education" "2025-11-02" "city park",
    listedEvent 2 "education" "2025-10-01" "town hall",
    listedEvent 3 "sport" "2025-09-15" "park lane",
    listedEvent 4 "education" "2025-03-20" "north park east"], []⟩

/-- A search string without the characters that `LIKE` reads specially. -/
def Literal (v : String) : Prop :=
  ∀ c ∈ v.toList, c ≠ '%' ∧ c ≠ '_' ∧ c ≠ escapeChar

instance decidableLiteral (v : String) : Decidable (Literal v) := by
  unfold Literal
  infer_instance

/-! ## Two register requests in flight -/

/-- Where a register request stands: the round-trip it waits for, or its answer. -/
inductive Stage where
  | checkEvent
  | checkRegistration
  | beginTransaction
  | insertRegistration
  | updateParticipants
  | commit
  | answered (response : Response)
deriving DecidableEq, Repr

/-- A register request in flight: its parameters, the identity the store will give
to its row, and its stage. -/
structure RegisterTask where
  eventId : Nat
  body : RegisterBody
  insertId : Nat
  stage : Stage
deriving DecidableEq, Repr

/-- The synchronous part of the register handler: the test of the required fields,
after which the event lookup is issued. -/
def startRegister (eventId : Nat) (body : RegisterBody) (insertId : Nat) : RegisterTask :=
  { eventId := eventId
    body := body
    insertId := insertId
    stage :=
      if !truthyStr body.name || !truthyStr body.phone then
        .answered ⟨400, .error "姓名和联系电话为必填项"⟩
      else .checkEvent }

/-- One round-trip of a register request on the store of the shared connection,
followed by the callback of that round-trip, which ends by issuing the next
round-trip or by answering. No round-trip fails. -/
def stepRegister (s : Store) (t : RegisterTask) : Store × RegisterTask :=
  match t.stage with
  | .checkEvent =>
    match checkEventQuery s t.eventId with
    | [] => (s, { t with stage := .answered ⟨404, .error "活动不存在"⟩ })
    | event :: _ =>
      if eventFull event then (s, { t with stage := .answered ⟨400, .error "活动名额已满"⟩ })
      else (s, { t with stage := .checkRegistration })
  | .checkRegistration =>
    if (checkRegistrationQuery s t.eventId (t.body.phone.getD "")).length > 0 then
      (s, { t with stage := .answered ⟨400, .error "您已经注册过此活动"⟩ })
    else (s, { t with stage := .beginTransaction })
  | .beginTransaction => (s, { t with stage := .insertRegistration })
  | .insertRegistration =>
    (insertRegistrationQuery s (registrationRow t.insertId t.eventId t.body),
      { t with stage := .updateParticipants })
  | .updateParticipants =>
    (updateParticipantsQuery s t.eventId, { t with stage := .commit })
  | .commit => (s, { t with stage := .answered ⟨200, .registered "注册成功！" t.insertId⟩ })
  | .answered _ => (s, t)

/-- A request run alone for a number of round-trips. -/
def runRegister : Nat → Store → RegisterTask → Store × RegisterTask
  | 0, s, t => (s, t)
  | n + 1, s, t => runRegister n (stepRegister s t).1 (stepRegister s t).2

/-- The store and two register requests in flight. -/
structure Concurrent where
  store : Store
  first : RegisterTask
  second : RegisterTask
deriving DecidableEq, Repr

/-- An interleaving of the round-trips of the two requests: at each entry of the
schedule the first request (`false`) or the second (`true`) performs its next
round-trip. -/
def interleave (c : Concurrent) : List Bool → Concurrent
  | [] => c
  | false :: rest =>
    interleave ⟨(stepRegister c.store c.first).1, (stepRegister c.store c.first).2, c.second⟩
      rest
  | true :: rest =>
    interleave ⟨(stepRegister c.store c.second).1, c.first, (stepRegister c.store c.second).2⟩
      rest

/-- The schedule in which the two requests take turns, six round-trips each. -/
def alternating : List Bool :=
  [false, true, false, true, false, true, false, true, false, true, false, true]

/-- The schedule in which the first request completes before the second starts. -/
def oneAfterTheOther : List Bool :=
  [false, false, false, false, false, false, true, true, true, true, true, true]

/-- Two requests for the last place of event 1, from different phones. -/
def lastPlaceRace : Concurrent :=
  ⟨scenarioStore, startRegister 1 (sampleBody "A" "111") 7,
    startRegister 1 (sampleBody "B" "222") 8⟩

/-- Two requests with the same phone for an event without limit. -/
def samePhoneRace : Concurrent :=
  ⟨⟨[sampleEvent 1 none 0], []⟩, startRegister 1 (sampleBody "A" "111") 7,
    startRegister 1 (sampleBody "A" "111") 8⟩

/-! ## Sequences of requests -/

/-- The four requests that write to the store. -/
inductive Request where
  | create (body : EventBody)
  | update (eventId : Nat) (body : EventBody)
  | delete (eventId : Nat)
  | register (eventId : Nat) (body : RegisterBody)

/-- Dispatch of a request to its handler. -/
def handle (env : Env) (s : Store) : Request → Outcome
  | .create body => postAdminEvents env s body
  | .update eventId body => putAdminEvent env s eventId body
  | .delete eventId => deleteAdminEvent env s eventId
  | .register eventId body => postRegister env s eventId body

/-- The store after one request, handled in the given environment. -/
def step (s : Store) (x : Env × Request) : Store :=
  (handle x.1 s x.2).store

/-- The store after a sequence of requests handled one after the other. -/
def run (s : Store) (trace : List (Env × Request)) : Store :=
  trace.foldl step s

/-- The store before any request. -/
def emptyStore : Store :=
  ⟨[], []⟩

/-- A condition on every request of a sequence, read against the store the request
meets. -/
def TraceOk (ok : Store → Env × Request → Prop) : Store → List (Env × Request) → Prop
  | _, [] => True
  | s, x :: xs => ok s x ∧ TraceOk ok (step s x) xs

/-- The identity the store would give to a created event is carried by no present
event (the `id` column is a key). -/
def FreshCreate (s : Store) (x : Env × Request) : Prop :=
  match x.2 with
  | .create _ => ∀ e ∈ s.events, e.id ≠ x.1.insertId
  | _ => True

/-- No orphan registration: every row refers to a present event. -/
def NoOrphan (s : Store) : Prop :=
  ∀ r ∈ s.registrations, ∃ e ∈ s.events, e.id = r.event_id

/-- Number of registration rows on an event id. -/
def registrationCount (s : Store) (eventId : Nat) : Nat :=
  s.registrations.countP (fun r => r.event_id == eventId)

/-- Every counter equals the number of rows on its event. -/
def CountersMatch (s : Store) : Prop :=
  ∀ e ∈ s.events, e.current_participants = (registrationCount s e.id : Int)

/-- Every event with a capacity has its counter within it. -/
def WithinCapacity (s : Store) : Prop :=
  ∀ e ∈ s.events, ∀ m ∈ e.max_participants, e.current_participants ≤ m

instance decidableNoOrphan (s : Store) : Decidable (NoOrphan s) := by
  unfold NoOrphan
  infer_instance

instance decidableCountersMatch (s : Store) : Decidable (CountersMatch s) := by
  unfold CountersMatch
  infer_instance

instance decidableWithinCapacity (s : Store) : Decidable (WithinCapacity s) := by
  unfold WithinCapacity
  infer_instance

/-- A sequence of requests: two events are created, each gets one registration, the
first event is deleted, and the second is renamed. -/
def sampleTrace : List (Env × Request) :=
  [(Env.ok 1, .create sampleEventBody),
   (Env.ok 7, .register 1 (sampleBody "A" "111")),
   (Env.ok 2, .create sampleEventBody),
   (Env.ok 8, .register 2 (sampleBody "B" "222")),
   (Env.ok 0, .delete 1),
   (Env.ok 0, .update 2 { sampleEventBody with name := some "Walk" })]

/-- The requests that cannot put a counter above a capacity by themselves: a create
whose event gets a fresh identity and whose capacity, if supplied, is not negative;
an update whose capacity, if supplied and not 0, is at least the counter of the event
it addresses; any delete; any register. -/
def CapacityKept (s : Store) (x : Env × Request) : Prop :=
  match x.2 with
  | .create body =>
    (∀ e ∈ s.events, e.id ≠ x.1.insertId) ∧ ∀ m ∈ body.max_participants, 0 ≤ m
  | .update eventId body =>
    ∀ m ∈ body.max_participants,
      m = 0 ∨ ∀ e ∈ s.events, e.id = eventId → e.current_participants ≤ m
  | _ => True

/-- A sequence of requests: an event without limit is created, two participants
register, and an update then gives the event a capacity of 1. -/
def overbookTrace : List (Env × Request) :=
  [(Env.ok 1, .create sampleEventBody),
   (Env.ok 7, .register 1 (sampleBody "A" "111")),
   (Env.ok 8, .register 1 (sampleBody "B" "222")),
   (Env.ok 0, .update 1 { sampleEventBody with max_participants := some 1 })]

/-- A single request: the creation of an event with a capacity of -1. -/
def negativeCapacityTrace : List (Env × Request) :=
  [(Env.ok 1, .create { sampleEventBody with max_participants := some (-1) })]

/-- A sequence of requests: an event with two places is created, three participants
try to register, and an update then gives the event a capacity of 5. -/
def cappedTrace : List (Env × Request) :=
  [(Env.ok 1, .create { sampleEventBody with max_participants := some 2 }),
   (Env.ok 7, .register 1 (sampleBody "A" "111")),
   (Env.ok 8, .register 1 (sampleBody "B" "222")),
   (Env.ok 9, .register 1 (sampleBody "C" "333")),
   (Env.ok 0, .update 1 { sampleEventBody with max_participants := some 5 })]

/-- The identities of the events are pairwise distinct, no capacity is 0, and every
counter is within its capacity. -/
def CapacityInvariant (s : Store) : Prop :=
  (s.events.map (fun e => e.id)).Nodup ∧
  ∀ e ∈ s.events, ∀ m ∈ e.max_participants, m ≠ 0 ∧ e.current_participants ≤ m

/-! ## Auxiliary facts -/

theorem truthyStr_iff (x : Option String) :
    truthyStr x = true ↔ ∃ v, x = some v ∧ v ≠ "" := by
  cases x with
  | none => simp [truthyStr]
  | some v => simp [truthyStr]

theorem truthyStr_false_iff (x : Option String) :
    truthyStr x = false ↔ x = none ∨ x = some "" := by
  cases x with
  | none => simp [truthyStr]
  | some v => simp [truthyStr]

theorem checkEventQuery_eq_nil (s : Store) (eventId : Nat) :
    checkEventQuery s eventId = [] ↔ ∀ e ∈ s.events, e.id ≠ eventId := by
  simp [checkEventQuery, List.filter_eq_nil_iff]

theorem checkRegistrationQuery_eq_nil (s : Store) (eventId : Nat) (phone : String) :
    checkRegistrationQuery s eventId phone = [] ↔
      ∀ r ∈ s.registrations, ¬ (r.event_id = eventId ∧ r.participant_phone = phone) := by
  simp [checkRegistrationQuery, List.filter_eq_nil_iff]

/-- Once the four prechecks pass, the outcome is decided by the four round-trips of
the transaction. -/
theorem postRegister_transaction (env : Env) (s : Store) (eventId : Nat) (body : RegisterBody)
    (event : Event) (rest : List Event)
    (hname : truthyStr body.name = true) (hphone : truthyStr body.phone = true)
    (hq1 : env.fails .checkEventQuery = false)
    (hevent : checkEventQuery s eventId = event :: rest)
    (hfull : eventFull event = false)
    (hq2 : env.fails .checkRegistrationQuery = false)
    (hdup : checkRegistrationQuery s eventId (body.phone.getD "") = []) :
    postRegister env s eventId body =
      if env.fails .beginTransaction then
        ⟨s, ⟨500, .error "注册失败"⟩,
          [.checkEventQuery, .checkRegistrationQuery, .beginTransaction]⟩
      else if env.fails .insertRegistrationQuery then
        ⟨s, ⟨500, .error "注册失败"⟩,
          [.checkEventQuery, .checkRegistrationQuery, .beginTransaction,
           .insertRegistrationQuery, .rollback]⟩
      else if env.fails .updateParticipantsQuery then
        ⟨s, ⟨500, .error "注册失败"⟩,
          [.checkEventQuery, .checkRegistrationQuery, .beginTransaction,
           .insertRegistrationQuery, .updateParticipantsQuery, .rollback]⟩
      else if env.fails .commit then
        ⟨s, ⟨500, .error "注册失败"⟩,
          [.checkEventQuery, .checkRegistrationQuery, .beginTransaction,
           .insertRegistrationQuery, .updateParticipantsQuery, .commit, .rollback]⟩
      else
        ⟨updateParticipantsQuery
            (insertRegistrationQuery s (registrationRow env.insertId eventId body)) eventId,
          ⟨200, .registered "注册成功！" env.insertId⟩,
          [.checkEventQuery, .checkRegistrationQuery, .beginTransaction,
           .insertRegistrationQuery, .updateParticipantsQuery, .commit]⟩ := by
  simp [postRegister, hname, hphone, hq1, hevent, hfull, hq2, hdup]

/-! ## Registration: the commit step and the rejections -/

/-- C1: a register request that passes the four prechecks (name and phone non-empty,
the event exists, it is not full, no registration with that phone exists for it) and
meets no store error adds exactly one registration row, carrying the submitted event
id and participant fields under the identity the store assigned; it increases the
counter of the event with that id by exactly 1 and changes no other event, no other
field and no existing registration; the answer is 200 with that identity as
`registrationId`. -/
theorem register_commits_one_row (env : Env) (s : Store) (eventId : Nat)
    (body : RegisterBody) (event : Event) (rest : List Event)
    (hname : truthyStr body.name = true) (hphone : truthyStr body.phone = true)
    (hevent : checkEventQuery s eventId = event :: rest)
    (hfull : eventFull event = false)
    (hdup : ∀ r ∈ s.registrations,
      ¬ (r.event_id = eventId ∧ some r.participant_phone = body.phone))
    (hok : ∀ c, env.fails c = false) :
    ∃ row : Registration,
      (postRegister env s eventId body).store.registrations = s.registrations ++ [row] ∧
      row.id = env.insertId ∧ row.event_id = eventId ∧
      some row.participant_name = body.name ∧ some row.participant_phone = body.phone ∧
      row.participant_email = body.email.getD "" ∧
      row.participant_age = body.age.getD "" ∧
      row.volunteer_experience = body.experience.getD "" ∧
      row.motivation = body.motivation.getD "" ∧
      row.allow_contact = body.allowContact.getD false ∧
      (postRegister env s eventId body).store.events =
        s.events.map (fun e =>
          if e.id = eventId then
            { e with current_participants := e.current_participants + 1 }
          else e) ∧
      (postRegister env s eventId body).response =
        ⟨200, .registered "注册成功！" row.id⟩ := by
  obtain ⟨n, hn, _⟩ := (truthyStr_iff _).1 hname
  obtain ⟨p, hp, _⟩ := (truthyStr_iff _).1 hphone
  have hdup2 : checkRegistrationQuery s eventId (body.phone.getD "") = [] := by
    rw [checkRegistrationQuery_eq_nil]
    intro r hr hc
    exact hdup r hr ⟨hc.1, by simp [hp, hc.2]⟩
  rw [postRegister_transaction env s eventId body event rest hname hphone (hok _) hevent
    hfull (hok _) hdup2]
  refine ⟨registrationRow env.insertId eventId body, ?_⟩
  simp [hok, updateParticipantsQuery, insertRegistrationQuery, registrationRow, hn, hp]

/-- C1, at a concrete request: one event with a free place, an empty registration table. -/
theorem register_commits_one_row_witness :
    ∃ row : Registration,
      (postRegister (Env.ok 7) ⟨[sampleEvent 1 (some 1) 0], []⟩ 1
        (sampleBody "A" "111")).store.registrations = [] ++ [row] ∧
      row.id = 7 ∧ row.event_id = 1 ∧
      some row.participant_name = some "A" ∧ some row.participant_phone = some "111" ∧
      row.participant_email = "" ∧ row.participant_age = "" ∧
      row.volunteer_experience = "" ∧ row.motivation = "" ∧ row.allow_contact = false ∧
      (postRegister (Env.ok 7) ⟨[sampleEvent 1 (some 1) 0], []⟩ 1
        (sampleBody "A" "111")).store.events =
        [sampleEvent 1 (some 1) 0].map (fun e =>
          if e.id = 1 then { e with current_participants := e.current_participants + 1 }
          else e) ∧
      (postRegister (Env.ok 7) ⟨[sampleEvent 1 (some 1) 0], []⟩ 1
        (sampleBody "A" "111")).response = ⟨200, .registered "注册成功！" row.id⟩ :=
  register_commits_one_row (Env.ok 7) ⟨[sampleEvent 1 (some 1) 0], []⟩ 1
    (sampleBody "A" "111") (sampleEvent 1 (some 1) 0) [] rfl rfl rfl rfl
    (by simp) (fun _ => rfl)

/-- C2: when name or phone is absent or the empty string, the register handler
answers 400 with the missing-fields message, issues no store round-trip at all, and
the store is the one it started from. -/
theorem register_rejects_missing_fields (env : Env) (s : Store) (eventId : Nat)
    (body : RegisterBody)
    (h : body.name = none ∨ body.name = some "" ∨ body.phone = none ∨ body.phone = some "") :
    (postRegister env s eventId body).response = ⟨400, .error "姓名和联系电话为必填项"⟩ ∧
    (postRegister env s eventId body).calls = [] ∧
    (postRegister env s eventId body).store = s := by
  have h2 : truthyStr body.name = false ∨ truthyStr body.phone = false := by
    rcases h with h | h | h | h
    · exact Or.inl ((truthyStr_false_iff _).2 (Or.inl h))
    · exact Or.inl ((truthyStr_false_iff _).2 (Or.inr h))
    · exact Or.inr ((truthyStr_false_iff _).2 (Or.inl h))
    · exact Or.inr ((truthyStr_false_iff _).2 (Or.inr h))
  rcases h2 with h2 | h2 <;> simp [postRegister, h2]

/-- C2, at a concrete request: a name and an empty phone, against a store in which
every round-trip would fail. -/
theorem register_rejects_missing_fields_witness :
    (postRegister Env.down ⟨[sampleEvent 1 none 0], []⟩ 1
      (sampleBody "A" "")).response = ⟨400, .error "姓名和联系电话为必填项"⟩ ∧
    (postRegister Env.down ⟨[sampleEvent 1 none 0], []⟩ 1 (sampleBody "A" "")).calls = [] ∧
    (postRegister Env.down ⟨[sampleEvent 1 none 0], []⟩ 1
      (sampleBody "A" "")).store = ⟨[sampleEvent 1 none 0], []⟩ :=
  register_rejects_missing_fields Env.down ⟨[sampleEvent 1 none 0], []⟩ 1
    (sampleBody "A" "") (Or.inr (Or.inr (Or.inr rfl)))

/-- C3: with non-empty name and phone, registering against an id that matches no
event answers 404 with the not-found message and leaves the store as it was: no
registration row is created and no counter changes. -/
theorem register_unknown_event (env : Env) (s : Store) (eventId : Nat) (body : RegisterBody)
    (hname : truthyStr body.name = true) (hphone : truthyStr body.phone = true)
    (hnone : ∀ e ∈ s.events, e.id ≠ eventId)
    (hq1 : env.fails .checkEventQuery = false) :
    (postRegister env s eventId body).response = ⟨404, .error "活动不存在"⟩ ∧
    (postRegister env s eventId body).store = s := by
  have h0 := (checkEventQuery_eq_nil s eventId).2 hnone
  simp [postRegister, hname, hphone, hq1, h0]

/-- C3, at a concrete request: the only event has id 1, the request names id 2. -/
theorem register_unknown_event_witness :
    (postRegister (Env.ok 7) ⟨[sampleEvent 1 none 0], []⟩ 2
      (sampleBody "A" "111")).response = ⟨404, .error "活动不存在"⟩ ∧
    (postRegister (Env.ok 7) ⟨[sampleEvent 1 none 0], []⟩ 2
      (sampleBody "A" "111")).store = ⟨[sampleEvent 1 none 0], []⟩ :=
  register_unknown_event (Env.ok 7) ⟨[sampleEvent 1 none 0], []⟩ 2 (sampleBody "A" "111")
    rfl rfl (by decide) rfl

/-! ## Registration: what a success implies -/

/-- A 200 answer of the register handler means that every precheck passed, no
round-trip failed, and both writes were committed. -/
theorem postRegister_ok_inv (env : Env) (s : Store) (eventId : Nat) (body : RegisterBody)
    (h : (postRegister env s eventId body).response.status = 200) :
    truthyStr body.name = true ∧ truthyStr body.phone = true ∧
    (∃ event rest, checkEventQuery s eventId = event :: rest ∧ eventFull event = false) ∧
    checkRegistrationQuery s eventId (body.phone.getD "") = [] ∧
    (postRegister env s eventId body).store =
      updateParticipantsQuery
        (insertRegistrationQuery s (registrationRow env.insertId eventId body)) eventId := by
  by_cases hn : truthyStr body.name = true
  swap
  · simp [postRegister, hn] at h
  by_cases hp : truthyStr body.phone = true
  swap
  · simp [postRegister, hp] at h
  by_cases hq1 : env.fails .checkEventQuery = true
  · simp [postRegister, hn, hp, hq1] at h
  cases hev : checkEventQuery s eventId with
  | nil => simp [postRegister, hn, hp, hq1, hev] at h
  | cons event rest =>
    by_cases hf : eventFull event = true
    · simp [postRegister, hn, hp, hq1, hev, hf] at h
    by_cases hq2 : env.fails .checkRegistrationQuery = true
    · simp [postRegister, hn, hp, hq1, hev, hf, hq2] at h
    cases hd : checkRegistrationQuery s eventId (body.phone.getD "") with
    | cons r rs => simp [postRegister, hn, hp, hq1, hev, hf, hq2, hd] at h
    | nil =>
      simp only [Bool.not_eq_true] at hq1 hf hq2
      have hT := postRegister_transaction env s eventId body event rest hn hp hq1 hev hf hq2 hd
      rw [hT] at h ⊢
      refine ⟨hn, hp, ⟨event, rest, rfl, hf⟩, rfl, ?_⟩
      split_ifs at h ⊢ <;> simp_all

/-- Any answer other than 200 leaves the store as it was. -/
theorem postRegister_store_of_rejected (env : Env) (s : Store) (eventId : Nat)
    (body : RegisterBody) (h : (postRegister env s eventId body).response.status ≠ 200) :
    (postRegister env s eventId body).store = s := by
  unfold postRegister at h ⊢
  repeat (first | split at h | simp_all)

theorem checkEventQuery_after_commit (s : Store) (row : Registration) (eventId : Nat) :
    checkEventQuery (updateParticipantsQuery (insertRegistrationQuery s row) eventId) eventId =
      (checkEventQuery s eventId).map bumped := by
  simp only [checkEventQuery, updateParticipantsQuery, insertRegistrationQuery,
    List.filter_map]
  have hf : List.filter ((fun e : Event => e.id == eventId) ∘ fun e =>
        if (e.id == eventId) = true then
          { e with current_participants := e.current_participants + 1 }
        else e) s.events = List.filter (fun e => e.id == eventId) s.events := by
    apply List.filter_congr
    intro e _
    by_cases h : e.id = eventId <;> simp [h]
  rw [hf]
  apply List.map_congr_left
  intro e he
  have h : e.id = eventId := by simpa using (List.mem_filter.1 he).2
  simp [h, bumped]

/-! ## Registration: capacity -/

/-- C4, as stated, fails. An event whose `max_participants` is 0 has
`current_participants >= max_participants`, yet the register handler accepts the
request and the counter becomes 1; and a request without a name on a full event is
answered with the missing-fields message, not with the capacity error. -/
theorem register_zero_capacity_not_enforced :
    (sampleEvent 1 (some 0) 0).max_participants = some 0 ∧
    (sampleEvent 1 (some 0) 0).current_participants ≥ 0 ∧
    (postRegister (Env.ok 7) ⟨[sampleEvent 1 (some 0) 0], []⟩ 1
      (sampleBody "A" "111")).response = ⟨200, .registered "注册成功！" 7⟩ ∧
    (postRegister (Env.ok 7) ⟨[sampleEvent 1 (some 0) 0], []⟩ 1
      (sampleBody "A" "111")).store.events = [sampleEvent 1 (some 0) 1] ∧
    (postRegister (Env.ok 7) fullStore 1 (sampleBody "" "222")).response =
      ⟨400, .error "姓名和联系电话为必填项"⟩ := by
  decide

/-- C4, amended: for an event whose `max_participants` is a number other than 0, a
register request succeeds only if `current_participants < max_participants`
beforehand, and after a success the counter, now one higher, is still at most
`max_participants`; when `current_participants >= max_participants`, a request with
non-empty name and phone (the event lookup not failing) is answered 400 with the
event-full message and the store is unchanged. -/
theorem register_respects_capacity (env : Env) (s : Store) (eventId : Nat)
    (body : RegisterBody) (event : Event) (rest : List Event) (m : Int)
    (hevent : checkEventQuery s eventId = event :: rest)
    (hmax : event.max_participants = some m) (hm : m ≠ 0) :
    ((postRegister env s eventId body).response.status = 200 →
      event.current_participants < m ∧
      (checkEventQuery (postRegister env s eventId body).store eventId).head? =
        some { event with current_participants := event.current_participants + 1 } ∧
      event.current_participants + 1 ≤ m) ∧
    (truthyStr body.name = true → truthyStr body.phone = true →
      env.fails .checkEventQuery = false → event.current_participants ≥ m →
      (postRegister env s eventId body).response = ⟨400, .error "活动名额已满"⟩ ∧
      (postRegister env s eventId body).store = s) := by
  constructor
  · intro h
    obtain ⟨_, _, ⟨ev, rs, hev, hfull⟩, _, hstore⟩ := postRegister_ok_inv env s eventId body h
    rw [hevent] at hev
    obtain ⟨rfl, rfl⟩ := List.cons_eq_cons.1 hev
    have hlt : event.current_participants < m := by
      simp [eventFull, hmax, hm] at hfull
      exact hfull
    refine ⟨hlt, ?_, by omega⟩
    rw [hstore, checkEventQuery_after_commit, hevent]
    rfl
  · intro hn hp hq1 hge
    have hfull : eventFull event = true := by
      simp [eventFull, hmax, hm, hge]
    simp [postRegister, hn, hp, hq1, hevent, hfull]

/-- C4, on the scenario of the specification: the first registration on an event with
one place succeeds and the counter becomes 1; the second, with another phone, is
rejected as full and the counter stays 1. -/
theorem register_respects_capacity_witness :
    scenarioFirst.response.status = 200 ∧
    (sampleEvent 1 (some 1) 0).current_participants < 1 ∧
    (checkEventQuery scenarioFirst.store 1).head? = some (sampleEvent 1 (some 1) 1) ∧
    scenarioSecond.response = ⟨400, .error "活动名额已满"⟩ ∧
    scenarioSecond.store = scenarioFirst.store ∧
    scenarioSecond.store.events = [sampleEvent 1 (some 1) 1] :=
  have first := (register_respects_capacity (Env.ok 7) scenarioStore 1
    (sampleBody "A" "111") (sampleEvent 1 (some 1) 0) [] 1 rfl rfl (by decide)).1 rfl
  have second := (register_respects_capacity (Env.ok 8) scenarioFirst.store 1
    (sampleBody "B" "222") (sampleEvent 1 (some 1) 1) [] 1 rfl rfl (by decide)).2
    rfl rfl rfl (by decide)
  ⟨rfl, first.1, first.2.1, second.1, second.2, rfl⟩

/-! ## Registration: duplicates -/

/-- C5, as stated, fails. A registration row for (event 1, phone 111) exists, but a
second attempt with that phone is not answered with the duplicate error: on a full
event it gets the event-full message, without a name the missing-fields message, and
when the row is all that is left of the event the not-found message. -/
theorem register_duplicate_masked_by_earlier_check :
    (∃ r ∈ fullStore.registrations, r.event_id = 1 ∧ r.participant_phone = "111") ∧
    (postRegister (Env.ok 8) fullStore 1 (sampleBody "A" "111")).response =
      ⟨400, .error "活动名额已满"⟩ ∧
    (postRegister (Env.ok 8) fullStore 1 (sampleBody "A" "111")).response ≠
      ⟨400, .error "您已经注册过此活动"⟩ ∧
    (∃ r ∈ registeredStore.registrations, r.event_id = 1 ∧ r.participant_phone = "111") ∧
    (postRegister (Env.ok 8) registeredStore 1 (sampleBody "" "111")).response =
      ⟨400, .error "姓名和联系电话为必填项"⟩ ∧
    (postRegister (Env.ok 8) ⟨[], registeredStore.registrations⟩ 1
      (sampleBody "A" "111")).response = ⟨404, .error "活动不存在"⟩ := by
  refine ⟨⟨registrationRow 7 1 (sampleBody "A" "111"), ?_, rfl, rfl⟩, by decide, by decide,
    ⟨registrationRow 7 1 (sampleBody "A" "111"), ?_, rfl, rfl⟩, by decide, by decide⟩
  · simp [fullStore]
  · simp [registeredStore]

/-- C5, amended: when a registration row for (event id, phone) already exists, a
register request on that event with that phone never succeeds and leaves the store
unchanged; it is answered 400 with the already-registered message whenever the
earlier checks pass (non-empty name and phone, the event exists and is not full, no
lookup fails). Register preserves the invariant that no two rows share event id and
phone, and after a successful registration a second identical request is rejected,
leaving exactly one row for that event and phone. -/
theorem register_rejects_duplicate (env env2 : Env) (s : Store) (eventId : Nat)
    (body : RegisterBody) :
    (∀ phone, body.phone = some phone →
      (∃ r ∈ s.registrations, r.event_id = eventId ∧ r.participant_phone = phone) →
      (postRegister env s eventId body).response.status ≠ 200 ∧
      (postRegister env s eventId body).store = s ∧
      (truthyStr body.name = true → phone ≠ "" →
        (∃ event rest, checkEventQuery s eventId = event :: rest ∧ eventFull event = false) →
        env.fails .checkEventQuery = false → env.fails .checkRegistrationQuery = false →
        (postRegister env s eventId body).response = ⟨400, .error "您已经注册过此活动"⟩)) ∧
    (UniquePhones s → UniquePhones (postRegister env s eventId body).store) ∧
    ((postRegister env s eventId body).response.status = 200 →
      (postRegister env2 (postRegister env s eventId body).store eventId body).response.status
        ≠ 200 ∧
      (postRegister env2 (postRegister env s eventId body).store eventId body).store =
        (postRegister env s eventId body).store ∧
      (checkRegistrationQuery
        (postRegister env2 (postRegister env s eventId body).store eventId body).store
        eventId (body.phone.getD "")).length = 1) := by
  have key : ∀ (e : Env) (t : Store) (phone : String), body.phone = some phone →
      (∃ r ∈ t.registrations, r.event_id = eventId ∧ r.participant_phone = phone) →
      (postRegister e t eventId body).response.status ≠ 200 ∧
      (postRegister e t eventId body).store = t := by
    intro e t phone hphone hrow
    have hne : (postRegister e t eventId body).response.status ≠ 200 := by
      intro h
      obtain ⟨_, _, _, hd, _⟩ := postRegister_ok_inv e t eventId body h
      rw [checkRegistrationQuery_eq_nil] at hd
      obtain ⟨r, hr, h1, h2⟩ := hrow
      exact hd r hr ⟨h1, by simp [hphone, h2]⟩
    exact ⟨hne, postRegister_store_of_rejected e t eventId body hne⟩
  refine ⟨?_, ?_, ?_⟩
  · intro phone hphone hrow
    refine ⟨(key env s phone hphone hrow).1, (key env s phone hphone hrow).2, ?_⟩
    rintro hn hne ⟨event, rest, hev, hfull⟩ hq1 hq2
    have hp : truthyStr body.phone = true := by simp [hphone, truthyStr, hne]
    obtain ⟨r, hr, h1, h2⟩ := hrow
    have hmem : r ∈ checkRegistrationQuery s eventId (body.phone.getD "") := by
      simp [checkRegistrationQuery, hphone, hr, h1, h2]
    have hpos : 0 < (checkRegistrationQuery s eventId (body.phone.getD "")).length :=
      List.length_pos_of_mem hmem
    simp [postRegister, hn, hp, hq1, hev, hfull, hq2, hpos]
  · intro huniq
    by_cases h : (postRegister env s eventId body).response.status = 200
    · obtain ⟨_, _, _, hd, hstore⟩ := postRegister_ok_inv env s eventId body h
      rw [hstore]
      rw [checkRegistrationQuery_eq_nil] at hd
      simp only [UniquePhones, updateParticipantsQuery, insertRegistrationQuery,
        List.pairwise_append]
      refine ⟨huniq, List.pairwise_singleton _ _, ?_⟩
      intro a ha b hb
      rw [List.mem_singleton] at hb
      subst hb
      intro hc
      exact hd a ha ⟨hc.1, hc.2⟩
    · rw [postRegister_store_of_rejected env s eventId body h]
      exact huniq
  · intro h
    obtain ⟨_, hp, _, hd, hstore⟩ := postRegister_ok_inv env s eventId body h
    obtain ⟨phone, hphone, _⟩ := (truthyStr_iff _).1 hp
    have hrow : ∃ r ∈ (postRegister env s eventId body).store.registrations,
        r.event_id = eventId ∧ r.participant_phone = phone := by
      refine ⟨registrationRow env.insertId eventId body, ?_, rfl, ?_⟩
      · simp [hstore, updateParticipantsQuery, insertRegistrationQuery]
      · simp [registrationRow, hphone]
    obtain ⟨k1, k2⟩ := key env2 _ phone hphone hrow
    refine ⟨k1, k2, ?_⟩
    rw [k2, hstore]
    have hsplit : checkRegistrationQuery
        (updateParticipantsQuery
          (insertRegistrationQuery s (registrationRow env.insertId eventId body)) eventId)
        eventId (body.phone.getD "") =
        checkRegistrationQuery s eventId (body.phone.getD "") ++
          [registrationRow env.insertId eventId body] := by
      simp [checkRegistrationQuery, updateParticipantsQuery, insertRegistrationQuery,
        List.filter_append, registrationRow]
    rw [hsplit, hd]
    rfl

/-- C5, on the scenario of the specification: name A, phone 111 registers twice on
the same event; the second request is answered with the already-registered message
and a single row exists afterwards. -/
theorem register_rejects_duplicate_witness :
    (postRegister (Env.ok 8) registeredStore 1 (sampleBody "A" "111")).response =
      ⟨400, .error "您已经注册过此活动"⟩ ∧
    (postRegister (Env.ok 8) registeredStore 1 (sampleBody "A" "111")).store =
      registeredStore ∧
    UniquePhones (postRegister (Env.ok 7) ⟨[sampleEvent 1 none 0], []⟩ 1
      (sampleBody "A" "111")).store ∧
    (checkRegistrationQuery
      (postRegister (Env.ok 8)
        (postRegister (Env.ok 7) ⟨[sampleEvent 1 none 0], []⟩ 1 (sampleBody "A" "111")).store
        1 (sampleBody "A" "111")).store 1 "111").length = 1 :=
  have h := register_rejects_duplicate (Env.ok 7) (Env.ok 8) ⟨[sampleEvent 1 none 0], []⟩ 1
    (sampleBody "A" "111")
  have g := (register_rejects_duplicate (Env.ok 8) (Env.ok 8) registeredStore 1
    (sampleBody "A" "111")).1 "111" rfl
    ⟨registrationRow 7 1 (sampleBody "A" "111"), by simp [registeredStore], rfl, rfl⟩
  ⟨g.2.2 rfl (by decide) ⟨sampleEvent 1 none 1, [], rfl, rfl⟩ rfl rfl, g.2.1,
    h.2.1 (by simp [UniquePhones]), (h.2.2 rfl).2.2⟩

/-! ## Registration: store errors inside the transaction -/

/-- C6: when the prechecks pass and a store error occurs at the begin, at the insert
of the registration row, at the increment of the counter or at the commit, the
handler answers 500 with the generic failure message and the store is the one
before the request: no row is added and no counter is changed. Whenever the
transaction had been opened, the last round-trip is the rollback. -/
theorem register_store_error_rolls_back (env : Env) (s : Store) (eventId : Nat)
    (body : RegisterBody) (event : Event) (rest : List Event)
    (hname : truthyStr body.name = true) (hphone : truthyStr body.phone = true)
    (hq1 : env.fails .checkEventQuery = false)
    (hevent : checkEventQuery s eventId = event :: rest)
    (hfull : eventFull event = false)
    (hq2 : env.fails .checkRegistrationQuery = false)
    (hdup : ∀ r ∈ s.registrations,
      ¬ (r.event_id = eventId ∧ some r.participant_phone = body.phone))
    (herr : env.fails .beginTransaction = true ∨ env.fails .insertRegistrationQuery = true ∨
      env.fails .updateParticipantsQuery = true ∨ env.fails .commit = true) :
    (postRegister env s eventId body).response = ⟨500, .error "注册失败"⟩ ∧
    (postRegister env s eventId body).store = s ∧
    (env.fails .beginTransaction = false →
      (postRegister env s eventId body).calls.getLast? = some .rollback) := by
  obtain ⟨p, hp, _⟩ := (truthyStr_iff _).1 hphone
  have hdup2 : checkRegistrationQuery s eventId (body.phone.getD "") = [] := by
    rw [checkRegistrationQuery_eq_nil]
    intro r hr hc
    exact hdup r hr ⟨hc.1, by simp [hp, hc.2]⟩
  rw [postRegister_transaction env s eventId body event rest hname hphone hq1 hevent
    hfull hq2 hdup2]
  by_cases hb : env.fails .beginTransaction = true
  · simp [hb]
  by_cases hi : env.fails .insertRegistrationQuery = true
  · simp [hb, hi]
  by_cases hu : env.fails .updateParticipantsQuery = true
  · simp [hb, hi, hu]
  by_cases hc : env.fails .commit = true
  · simp [hb, hi, hu, hc]
  · simp [hb, hi, hu, hc] at herr

/-- C6, at concrete requests: the increment fails after the insert succeeded, and
the commit fails after both writes succeeded; each time the store is back to what it
was. -/
theorem register_store_error_rolls_back_witness :
    ((postRegister (Env.failing .updateParticipantsQuery 7) scenarioStore 1
        (sampleBody "A" "111")).response = ⟨500, .error "注册失败"⟩ ∧
      (postRegister (Env.failing .updateParticipantsQuery 7) scenarioStore 1
        (sampleBody "A" "111")).store = scenarioStore ∧
      (postRegister (Env.failing .updateParticipantsQuery 7) scenarioStore 1
        (sampleBody "A" "111")).calls.getLast? = some .rollback) ∧
    ((postRegister (Env.failing .commit 7) scenarioStore 1
        (sampleBody "A" "111")).response = ⟨500, .error "注册失败"⟩ ∧
      (postRegister (Env.failing .commit 7) scenarioStore 1
        (sampleBody "A" "111")).store = scenarioStore ∧
      (postRegister (Env.failing .commit 7) scenarioStore 1
        (sampleBody "A" "111")).calls.getLast? = some .rollback) :=
  have h1 := register_store_error_rolls_back (Env.failing .updateParticipantsQuery 7)
    scenarioStore 1 (sampleBody "A" "111") (sampleEvent 1 (some 1) 0) [] rfl rfl rfl rfl rfl
    rfl (by simp [scenarioStore]) (Or.inr (Or.inr (Or.inl rfl)))
  have h2 := register_store_error_rolls_back (Env.failing .commit 7)
    scenarioStore 1 (sampleBody "A" "111") (sampleEvent 1 (some 1) 0) [] rfl rfl rfl rfl rfl
    rfl (by simp [scenarioStore]) (Or.inr (Or.inr (Or.inr rfl)))
  ⟨⟨h1.1, h1.2.1, h1.2.2 rfl⟩, ⟨h2.1, h2.2.1, h2.2.2 rfl⟩⟩

/-! ## Deleting an event -/

theorem affectedRows_eq_zero (s : Store) (eventId : Nat) :
    affectedRows s eventId = 0 ↔ ∀ e ∈ s.events, e.id ≠ eventId := by
  simp [affectedRows, List.filter_eq_nil_iff]

/-- C7: absent store errors, deleting an id that an event carries removes every event
with that id and every registration whose `event_id` is that id, keeps every other
event and registration as it was and in place, and answers 200; deleting an id that
no event carries answers 404 and leaves the store as it was, the registration
deletions of the transaction rolled back. -/
theorem delete_removes_event_and_registrations (env : Env) (s : Store) (eventId : Nat)
    (hok : ∀ c, env.fails c = false) :
    ((∃ e ∈ s.events, e.id = eventId) →
      (deleteAdminEvent env s eventId).store.events =
        s.events.filter (fun e => decide (e.id ≠ eventId)) ∧
      (deleteAdminEvent env s eventId).store.registrations =
        s.registrations.filter (fun r => decide (r.event_id ≠ eventId)) ∧
      (∀ e ∈ (deleteAdminEvent env s eventId).store.events, e.id ≠ eventId) ∧
      (∀ r ∈ (deleteAdminEvent env s eventId).store.registrations, r.event_id ≠ eventId) ∧
      (deleteAdminEvent env s eventId).response = ⟨200, .message "活动删除成功"⟩) ∧
    ((∀ e ∈ s.events, e.id ≠ eventId) →
      (deleteAdminEvent env s eventId).store = s ∧
      (deleteAdminEvent env s eventId).response = ⟨404, .error "活动不存在"⟩ ∧
      (deleteAdminEvent env s eventId).calls.getLast? = some .rollback) := by
  constructor
  · intro hex
    have hne : ¬ affectedRows (deleteRegistrationsQuery s eventId) eventId = 0 := by
      rw [affectedRows_eq_zero]
      obtain ⟨e, he, hid⟩ := hex
      intro hall
      exact hall e (by simpa [deleteRegistrationsQuery] using he) hid
    have hout : deleteAdminEvent env s eventId =
        ⟨deleteEventQuery (deleteRegistrationsQuery s eventId) eventId,
          ⟨200, .message "活动删除成功"⟩,
          [.beginTransaction, .deleteRegistrationsQuery, .deleteEventQuery, .commit]⟩ := by
      simp [deleteAdminEvent, hok, hne]
    rw [hout]
    simp only [deleteEventQuery, deleteRegistrationsQuery]
    refine ⟨?_, ?_, ?_, ?_, trivial⟩
    · exact List.filter_congr (fun x _ => by by_cases h : x.id = eventId <;> simp [h])
    · exact List.filter_congr (fun x _ => by by_cases h : x.event_id = eventId <;> simp [h])
    · intro e he
      simpa using (List.mem_filter.1 he).2
    · intro r hr
      simpa using (List.mem_filter.1 hr).2
  · intro hnone
    have hz : affectedRows (deleteRegistrationsQuery s eventId) eventId = 0 := by
      rw [affectedRows_eq_zero]
      simpa [deleteRegistrationsQuery] using hnone
    have hout : deleteAdminEvent env s eventId =
        ⟨s, ⟨404, .error "活动不存在"⟩,
          [.beginTransaction, .deleteRegistrationsQuery, .deleteEventQuery, .rollback]⟩ := by
      simp [deleteAdminEvent, hok, hz]
    rw [hout]
    simp

/-- C7, at concrete requests: two events, a registration on each; deleting event 1
keeps event 2 and its registration, deleting the unknown event 3 changes nothing. -/
theorem delete_removes_event_and_registrations_witness :
    ((deleteAdminEvent (Env.ok 0) twoEventStore 1).store =
        ⟨[sampleEvent 2 none 1], [registrationRow 8 2 (sampleBody "B" "222")]⟩ ∧
      (deleteAdminEvent (Env.ok 0) twoEventStore 1).response =
        ⟨200, .message "活动删除成功"⟩) ∧
    ((deleteAdminEvent (Env.ok 0) twoEventStore 3).store = twoEventStore ∧
      (deleteAdminEvent (Env.ok 0) twoEventStore 3).response =
        ⟨404, .error "活动不存在"⟩) :=
  have h := delete_removes_event_and_registrations (Env.ok 0) twoEventStore
  have h1 := (h 1 (fun _ => rfl)).1 ⟨sampleEvent 1 none 1, by simp [twoEventStore], rfl⟩
  have h3 := (h 3 (fun _ => rfl)).2 (by decide)
  ⟨⟨rfl, h1.2.2.2.2⟩, ⟨h3.1, h3.2.1⟩⟩

/-! ## Creating an event -/

theorem missingRequired_of_absent (body : EventBody)
    (h : ∃ f ∈ [body.name, body.category, body.date, body.location],
      f = none ∨ f = some "") :
    missingRequired body = true := by
  obtain ⟨f, hf, hfalse⟩ := h
  have hfalsy : truthyStr f = false := (truthyStr_false_iff f).2 hfalse
  simp only [List.mem_cons, List.mem_singleton, List.not_mem_nil, or_false] at hf
  rcases hf with rfl | rfl | rfl | rfl <;> simp [missingRequired, hfalsy]

/-- C8: when at least one of name, category, date, location is absent or the empty
string, the create handler answers 400 with the required-fields message, issues no
store round-trip and leaves the store unchanged: no row is inserted. -/
theorem create_rejects_missing_required (env : Env) (s : Store) (body : EventBody)
    (h : ∃ f ∈ [body.name, body.category, body.date, body.location],
      f = none ∨ f = some "") :
    (postAdminEvents env s body).response =
      ⟨400, .error "活动名称、类别、日期和地点为必填项"⟩ ∧
    (postAdminEvents env s body).store = s ∧
    (postAdminEvents env s body).calls = [] := by
  simp [postAdminEvents, missingRequired_of_absent body h]

/-- C8, at the request of the specification: a create body that lacks only the
location. -/
theorem create_rejects_missing_required_witness :
    (postAdminEvents (Env.ok 3) scenarioStore
      { sampleEventBody with location := none }).response =
      ⟨400, .error "活动名称、类别、日期和地点为必填项"⟩ ∧
    (postAdminEvents (Env.ok 3) scenarioStore
      { sampleEventBody with location := none }).store = scenarioStore ∧
    (postAdminEvents (Env.ok 3) scenarioStore
      { sampleEventBody with location := none }).calls = [] :=
  create_rejects_missing_required (Env.ok 3) scenarioStore
    { sampleEventBody with location := none } ⟨none, by simp [sampleEventBody], Or.inl rfl⟩

theorem orNullStr_eq (x : Option String) :
    orNullStr x = if x = some "" then none else x := by
  cases x with
  | none => simp [orNullStr, truthyStr]
  | some v => by_cases h : v = "" <;> simp [orNullStr, truthyStr, h]

theorem orNullNum_eq (x : Option Int) :
    orNullNum x = if x = some 0 then none else x := by
  cases x with
  | none => simp [orNullNum, truthyNum]
  | some v => by_cases h : v = 0 <;> simp [orNullNum, truthyNum, h]

theorem orNum_zero (x : Option Int) : orNum x 0 = x.getD 0 := by
  cases x with
  | none => simp [orNum]
  | some v => by_cases h : v = 0 <;> simp [orNum, h]

theorem orStr_eq (x : Option String) (d : String) :
    orStr x d = if x = some "" then d else x.getD d := by
  cases x with
  | none => simp [orStr]
  | some v => by_cases h : v = "" <;> simp [orStr, h]

theorem some_getD_of_truthy (x : Option String) (h : truthyStr x = true) :
    some (x.getD "") = x := by
  obtain ⟨v, rfl, _⟩ := (truthyStr_iff x).1 h
  rfl

theorem missingRequired_eq_false (body : EventBody)
    (hname : truthyStr body.name = true) (hcategory : truthyStr body.category = true)
    (hdate : truthyStr body.date = true) (hlocation : truthyStr body.location = true) :
    missingRequired body = false := by
  simp [missingRequired, hname, hcategory, hdate, hlocation]

/-- C9, as stated, fails: a supplied `max_participants` of 0 and a supplied empty
description are not stored as given; the created row holds no capacity and no
description. -/
theorem create_zero_capacity_stored_as_absent :
    zeroCapacityBody.max_participants = some 0 ∧
    zeroCapacityBody.description = some "" ∧
    (postAdminEvents (Env.ok 3) ⟨[], []⟩ zeroCapacityBody).response =
      ⟨200, .created "活动创建成功" 3⟩ ∧
    (postAdminEvents (Env.ok 3) ⟨[], []⟩ zeroCapacityBody).store.events.map
      (fun e => e.max_participants) = [none] ∧
    (postAdminEvents (Env.ok 3) ⟨[], []⟩ zeroCapacityBody).store.events.map
      (fun e => e.description) = [none] := by
  decide

/-- C9, amended: with non-empty name, category, date and location and no store
error, the create handler appends exactly one event row and answers 200 with its id;
existing events and the registrations are unchanged. The row's counter is 0 whatever
the body says; name, category, date and location are the supplied ones; an optional
field that is omitted, or supplied as the empty string or as the number 0, takes
its default (absent for time, organizer, max_participants, contact_info, description
and image_url; 0 for the fee; upcoming for the status); any other supplied value is
stored as given. -/
theorem create_adds_one_event (env : Env) (s : Store) (body : EventBody)
    (hname : truthyStr body.name = true) (hcategory : truthyStr body.category = true)
    (hdate : truthyStr body.date = true) (hlocation : truthyStr body.location = true)
    (hok : env.fails .insertEventQuery = false) :
    ∃ row : Event,
      (postAdminEvents env s body).store.events = s.events ++ [row] ∧
      (postAdminEvents env s body).store.registrations = s.registrations ∧
      (postAdminEvents env s body).response = ⟨200, .created "活动创建成功" row.id⟩ ∧
      row.id = env.insertId ∧
      row.current_participants = 0 ∧
      some row.name = body.name ∧ some row.category = body.category ∧
      some row.date = body.date ∧ some row.location = body.location ∧
      row.time = (if body.time = some "" then none else body.time) ∧
      row.organizer = (if body.organizer = some "" then none else body.organizer) ∧
      row.max_participants =
        (if body.max_participants = some 0 then none else body.max_participants) ∧
      row.registration_fee = body.registration_fee.getD 0 ∧
      row.contact_info = (if body.contact_info = some "" then none else body.contact_info) ∧
      row.status = (if body.status = some "" then "upcoming" else body.status.getD "upcoming") ∧
      row.description = (if body.description = some "" then none else body.description) ∧
      row.image_url = (if body.image_url = some "" then none else body.image_url) := by
  refine ⟨createdRow env.insertId body, ?_⟩
  have hreq := missingRequired_eq_false body hname hcategory hdate hlocation
  simp only [postAdminEvents, hreq, hok, createdRow, insertEventQuery, orNullStr_eq,
    orNullNum_eq, orNum_zero, orStr_eq, some_getD_of_truthy _ hname,
    some_getD_of_truthy _ hcategory, some_getD_of_truthy _ hdate,
    some_getD_of_truthy _ hlocation]
  simp

/-- C9, at a concrete request: a body that supplies every field and a counter of 5
creates the row with those values and a counter of 0. -/
theorem create_adds_one_event_witness :
    (postAdminEvents (Env.ok 3) scenarioStore fullEventBody).store.events =
      scenarioStore.events ++ [galaEvent 0] ∧
    (postAdminEvents (Env.ok 3) scenarioStore fullEventBody).store.registrations =
      scenarioStore.registrations ∧
    (postAdminEvents (Env.ok 3) scenarioStore fullEventBody).response =
      ⟨200, .created "活动创建成功" 3⟩ ∧
    (∃ row : Event,
      (postAdminEvents (Env.ok 3) scenarioStore sampleEventBody).store.events =
        scenarioStore.events ++ [row] ∧
      row.current_participants = 0 ∧ row.status = "upcoming" ∧ row.registration_fee = 0 ∧
      row.time = none ∧ row.organizer = none ∧ row.max_participants = none ∧
      row.contact_info = none ∧ row.description = none ∧ row.image_url = none) := by
  obtain ⟨row, h1, _, _, _, h5, _, _, _, _, h10, h11, h12, h13, h14, h15, h16, h17⟩ :=
    create_adds_one_event (Env.ok 3) scenarioStore sampleEventBody rfl rfl rfl rfl rfl
  exact ⟨rfl, rfl, rfl, row, h1, h5, h15, h13, h10, h11, h12, h14, h16, h17⟩

/-! ## Updating an event -/

theorem updateEventQuery_of_absent (s : Store) (eventId : Nat) (body : EventBody)
    (h : ∀ e ∈ s.events, e.id ≠ eventId) : updateEventQuery s eventId body = s := by
  have hmap : s.events.map (fun e => if e.id == eventId then updatedRow e body else e) =
      s.events := by
    conv_rhs => rw [← List.map_id s.events]
    apply List.map_congr_left
    intro e he
    simp [h e he]
  simp only [updateEventQuery, hmap]

/-- C10, as stated, fails: an update that supplies `max_participants` 0 and an empty
description does not store these payload values; the addressed event ends with no
capacity and no description. -/
theorem update_zero_capacity_stored_as_absent :
    zeroCapacityBody.max_participants = some 0 ∧
    zeroCapacityBody.description = some "" ∧
    (putAdminEvent (Env.ok 0) galaStore 3 zeroCapacityBody).response =
      ⟨200, .message "活动更新成功"⟩ ∧
    (putAdminEvent (Env.ok 0) galaStore 3 zeroCapacityBody).store.events.map
      (fun e => (e.id, e.max_participants, e.description)) =
      [(1, none, none), (3, none, none)] := by
  decide

/-- C10, amended: if any of name, category, date, location is absent or empty the
update handler answers 400 and the store is unchanged; otherwise, absent store
errors, if no event has the id it answers 404 and the store is unchanged; otherwise
it answers 200, every event with that id gets its twelve mutable fields replaced and
keeps its id and its counter, and every other event and every registration is
unchanged. The replacement value of a required field is the supplied one; that of an
optional field is the supplied one, except that an omitted field, an empty string
and the number 0 give the default of create (absent; fee 0; status upcoming). -/
theorem update_replaces_mutable_fields (env : Env) (s : Store) (eventId : Nat)
    (body : EventBody) :
    ((∃ f ∈ [body.name, body.category, body.date, body.location], f = none ∨ f = some "") →
      (putAdminEvent env s eventId body).response =
        ⟨400, .error "活动名称、类别、日期和地点为必填项"⟩ ∧
      (putAdminEvent env s eventId body).store = s) ∧
    (truthyStr body.name = true → truthyStr body.category = true →
      truthyStr body.date = true → truthyStr body.location = true →
      env.fails .updateEventQuery = false →
      ((∀ e ∈ s.events, e.id ≠ eventId) →
        (putAdminEvent env s eventId body).response = ⟨404, .error "活动不存在"⟩ ∧
        (putAdminEvent env s eventId body).store = s) ∧
      ((∃ e ∈ s.events, e.id = eventId) →
        (putAdminEvent env s eventId body).response = ⟨200, .message "活动更新成功"⟩ ∧
        (putAdminEvent env s eventId body).store.registrations = s.registrations ∧
        (putAdminEvent env s eventId body).store.events =
          s.events.map (fun e => if e.id = eventId then updatedRow e body else e)) ∧
      (∀ e : Event,
        (updatedRow e body).id = e.id ∧
        (updatedRow e body).current_participants = e.current_participants ∧
        some (updatedRow e body).name = body.name ∧
        some (updatedRow e body).category = body.category ∧
        some (updatedRow e body).date = body.date ∧
        some (updatedRow e body).location = body.location ∧
        (updatedRow e body).time = (if body.time = some "" then none else body.time) ∧
        (updatedRow e body).organizer =
          (if body.organizer = some "" then none else body.organizer) ∧
        (updatedRow e body).max_participants =
          (if body.max_participants = some 0 then none else body.max_participants) ∧
        (updatedRow e body).registration_fee = body.registration_fee.getD 0 ∧
        (updatedRow e body).contact_info =
          (if body.contact_info = some "" then none else body.contact_info) ∧
        (updatedRow e body).status =
          (if body.status = some "" then "upcoming" else body.status.getD "upcoming") ∧
        (updatedRow e body).description =
          (if body.description = some "" then none else body.description) ∧
        (updatedRow e body).image_url =
          (if body.image_url = some "" then none else body.image_url))) := by
  constructor
  · intro h
    simp [putAdminEvent, missingRequired_of_absent body h]
  · intro hname hcategory hdate hlocation hok
    have hreq := missingRequired_eq_false body hname hcategory hdate hlocation
    refine ⟨?_, ?_, ?_⟩
    · intro hnone
      have hz := (affectedRows_eq_zero s eventId).2 hnone
      simp [putAdminEvent, hreq, hok, hz, updateEventQuery_of_absent s eventId body hnone]
    · intro hex
      have hne : ¬ affectedRows s eventId = 0 := by
        rw [affectedRows_eq_zero]
        obtain ⟨e, he, hid⟩ := hex
        exact fun hall => hall e he hid
      simp [putAdminEvent, hreq, hok, hne, updateEventQuery]
    · intro e
      simp only [updatedRow, orNullStr_eq, orNullNum_eq, orNum_zero, orStr_eq,
        some_getD_of_truthy _ hname, some_getD_of_truthy _ hcategory,
        some_getD_of_truthy _ hdate, some_getD_of_truthy _ hlocation]
      simp

/-- C10, at concrete requests on a store with events 1 and 3: a body without location
is refused; a full body addressed to the unknown id 2 answers 404; addressed to id 3
it replaces the twelve fields of that event, whose counter stays 2, and leaves event
1 and the registration as they were. -/
theorem update_replaces_mutable_fields_witness :
    ((putAdminEvent (Env.ok 0) galaStore 3 { fullEventBody with location := none }).response =
        ⟨400, .error "活动名称、类别、日期和地点为必填项"⟩ ∧
      (putAdminEvent (Env.ok 0) galaStore 3 { fullEventBody with location := none }).store =
        galaStore) ∧
    ((putAdminEvent (Env.ok 0) galaStore 2 fullEventBody).response =
        ⟨404, .error "活动不存在"⟩ ∧
      (putAdminEvent (Env.ok 0) galaStore 2 fullEventBody).store = galaStore) ∧
    ((putAdminEvent (Env.ok 0) galaStore 3 fullEventBody).response =
        ⟨200, .message "活动更新成功"⟩ ∧
      (putAdminEvent (Env.ok 0) galaStore 3 fullEventBody).store.registrations =
        galaStore.registrations ∧
      (putAdminEvent (Env.ok 0) galaStore 3 fullEventBody).store.events =
        [sampleEvent 1 none 1, galaEvent 2]) :=
  have h400 := (update_replaces_mutable_fields (Env.ok 0) galaStore 3
    { fullEventBody with location := none }).1 ⟨none, by simp [fullEventBody], Or.inl rfl⟩
  have h404 := ((update_replaces_mutable_fields (Env.ok 0) galaStore 2 fullEventBody).2
    rfl rfl rfl rfl rfl).1 (by decide)
  have h200 := ((update_replaces_mutable_fields (Env.ok 0) galaStore 3 fullEventBody).2
    rfl rfl rfl rfl rfl).2.1 ⟨sampleEvent 3 (some 10) 2, by simp [galaStore], rfl⟩
  ⟨h400, h404, h200.1, h200.2.1, h200.2.2⟩

/-! ## Registration: the order of the prechecks -/

/-- C12: the register handler reports the first violated precondition, whatever the
later ones are: missing name or phone gives the 400 validation answer even if the
event is unknown, full or already joined; otherwise an unknown event gives 404 even
if rows with that phone exist; otherwise a full event gives the 400 event-full answer
even if the phone is registered; otherwise a registered phone gives the 400
already-registered answer. In each of these cases the store is unchanged. -/
theorem register_precheck_order (env : Env) (s : Store) (eventId : Nat) (body : RegisterBody)
    (hq1 : env.fails .checkEventQuery = false)
    (hq2 : env.fails .checkRegistrationQuery = false) :
    ((body.name = none ∨ body.name = some "" ∨ body.phone = none ∨ body.phone = some "") →
      (postRegister env s eventId body).response = ⟨400, .error "姓名和联系电话为必填项"⟩ ∧
      (postRegister env s eventId body).store = s) ∧
    (truthyStr body.name = true → truthyStr body.phone = true →
      ((∀ e ∈ s.events, e.id ≠ eventId) →
        (postRegister env s eventId body).response = ⟨404, .error "活动不存在"⟩ ∧
        (postRegister env s eventId body).store = s) ∧
      (∀ event rest, checkEventQuery s eventId = event :: rest →
        (eventFull event = true →
          (postRegister env s eventId body).response = ⟨400, .error "活动名额已满"⟩ ∧
          (postRegister env s eventId body).store = s) ∧
        (eventFull event = false →
          (∃ r ∈ s.registrations,
            r.event_id = eventId ∧ some r.participant_phone = body.phone) →
          (postRegister env s eventId body).response = ⟨400, .error "您已经注册过此活动"⟩ ∧
          (postRegister env s eventId body).store = s))) := by
  constructor
  · intro h
    have h2 : truthyStr body.name = false ∨ truthyStr body.phone = false := by
      rcases h with h | h | h | h
      · exact Or.inl ((truthyStr_false_iff _).2 (Or.inl h))
      · exact Or.inl ((truthyStr_false_iff _).2 (Or.inr h))
      · exact Or.inr ((truthyStr_false_iff _).2 (Or.inl h))
      · exact Or.inr ((truthyStr_false_iff _).2 (Or.inr h))
    rcases h2 with h2 | h2 <;> simp [postRegister, h2]
  · intro hn hp
    refine ⟨?_, ?_⟩
    · intro hnone
      have h0 := (checkEventQuery_eq_nil s eventId).2 hnone
      simp [postRegister, hn, hp, hq1, h0]
    · intro event rest hev
      refine ⟨?_, ?_⟩
      · intro hfull
        simp [postRegister, hn, hp, hq1, hev, hfull]
      · rintro hfull ⟨r, hr, h1, h2⟩
        have hmem : r ∈ checkRegistrationQuery s eventId (body.phone.getD "") := by
          obtain ⟨p, hpe, _⟩ := (truthyStr_iff _).1 hp
          rw [hpe] at h2
          simp only [Option.some.injEq] at h2
          simp [checkRegistrationQuery, hpe, hr, h1, h2]
        have hpos : 0 < (checkRegistrationQuery s eventId (body.phone.getD "")).length :=
          List.length_pos_of_mem hmem
        simp [postRegister, hn, hp, hq1, hev, hfull, hq2, hpos]

/-- C12, at concrete requests on a store whose only event is full and already joined by
phone 111: without a name the answer is the validation one; with a name, on the
unknown event 2, not-found; on event 1, event-full; and on the same event without
limit, already-registered. -/
theorem register_precheck_order_witness :
    (postRegister (Env.ok 8) fullStore 1 (sampleBody "" "111")).response =
      ⟨400, .error "姓名和联系电话为必填项"⟩ ∧
    (postRegister (Env.ok 8) fullStore 2 (sampleBody "A" "111")).response =
      ⟨404, .error "活动不存在"⟩ ∧
    (postRegister (Env.ok 8) fullStore 1 (sampleBody "A" "111")).response =
      ⟨400, .error "活动名额已满"⟩ ∧
    (postRegister (Env.ok 8) registeredStore 1 (sampleBody "A" "111")).response =
      ⟨400, .error "您已经注册过此活动"⟩ ∧
    (postRegister (Env.ok 8) fullStore 1 (sampleBody "A" "111")).store = fullStore :=
  have v := (register_precheck_order (Env.ok 8) fullStore 1 (sampleBody "" "111")
    rfl rfl).1 (Or.inr (Or.inl rfl))
  have n := ((register_precheck_order (Env.ok 8) fullStore 2 (sampleBody "A" "111")
    rfl rfl).2 rfl rfl).1 (by decide)
  have f := (((register_precheck_order (Env.ok 8) fullStore 1 (sampleBody "A" "111")
    rfl rfl).2 rfl rfl).2 (sampleEvent 1 (some 1) 1) [] rfl).1 rfl
  have d := (((register_precheck_order (Env.ok 8) registeredStore 1 (sampleBody "A" "111")
    rfl rfl).2 rfl rfl).2 (sampleEvent 1 none 1) [] rfl).2 rfl
    ⟨registrationRow 7 1 (sampleBody "A" "111"), by simp [registeredStore], rfl, rfl⟩
  ⟨v.1, n.1, f.1, d.1, f.2⟩

/-! ## The store after one request -/

theorem postRegister_store (env : Env) (s : Store) (eventId : Nat) (body : RegisterBody) :
    (postRegister env s eventId body).store = s ∨
    ((∃ event rest, checkEventQuery s eventId = event :: rest ∧ eventFull event = false) ∧
      checkRegistrationQuery s eventId (body.phone.getD "") = [] ∧
      (postRegister env s eventId body).store =
        updateParticipantsQuery
          (insertRegistrationQuery s (registrationRow env.insertId eventId body)) eventId) := by
  by_cases h : (postRegister env s eventId body).response.status = 200
  · obtain ⟨_, _, hev, hd, hstore⟩ := postRegister_ok_inv env s eventId body h
    exact Or.inr ⟨hev, hd, hstore⟩
  · exact Or.inl (postRegister_store_of_rejected env s eventId body h)

theorem postAdminEvents_store (env : Env) (s : Store) (body : EventBody) :
    (postAdminEvents env s body).store = s ∨
    (postAdminEvents env s body).store = insertEventQuery s (createdRow env.insertId body) := by
  unfold postAdminEvents
  split_ifs <;> simp

theorem putAdminEvent_store (env : Env) (s : Store) (eventId : Nat) (body : EventBody) :
    (putAdminEvent env s eventId body).store = s ∨
    (putAdminEvent env s eventId body).store = updateEventQuery s eventId body := by
  unfold putAdminEvent
  split_ifs <;> simp

theorem deleteAdminEvent_store (env : Env) (s : Store) (eventId : Nat) :
    (deleteAdminEvent env s eventId).store = s ∨
    (deleteAdminEvent env s eventId).store =
      deleteEventQuery (deleteRegistrationsQuery s eventId) eventId := by
  unfold deleteAdminEvent
  by_cases h : affectedRows (deleteRegistrationsQuery s eventId) eventId = 0 <;>
    split_ifs <;> simp [h]

theorem run_cons (s : Store) (x : Env × Request) (xs : List (Env × Request)) :
    run s (x :: xs) = run (step s x) xs := rfl

/-- A property of stores kept by every request holds along every sequence. -/
theorem run_invariant (P : Store → Prop) (hstep : ∀ s x, P s → P (step s x))
    (s : Store) (trace : List (Env × Request)) (h : P s) : P (run s trace) := by
  induction trace generalizing s with
  | nil => exact h
  | cons x xs ih => exact ih (step s x) (hstep s x h)

/-! ## No orphan registration -/

theorem noOrphan_insertEvent (s : Store) (row : Event) (h : NoOrphan s) :
    NoOrphan (insertEventQuery s row) := by
  intro r hr
  obtain ⟨e, he, hid⟩ := h r hr
  exact ⟨e, by simp [insertEventQuery, he], hid⟩

theorem noOrphan_updateEvent (s : Store) (eventId : Nat) (body : EventBody)
    (h : NoOrphan s) : NoOrphan (updateEventQuery s eventId body) := by
  intro r hr
  obtain ⟨e, he, hid⟩ := h r hr
  refine ⟨if e.id == eventId then updatedRow e body else e, ?_, ?_⟩
  · simp only [updateEventQuery, List.mem_map]
    exact ⟨e, he, rfl⟩
  · by_cases hc : e.id = eventId <;> simp [hc, updatedRow, ← hid]

theorem noOrphan_delete (s : Store) (eventId : Nat) (h : NoOrphan s) :
    NoOrphan (deleteEventQuery (deleteRegistrationsQuery s eventId) eventId) := by
  intro r hr
  simp only [deleteEventQuery, deleteRegistrationsQuery, List.mem_filter] at hr ⊢
  obtain ⟨e, he, hid⟩ := h r hr.1
  refine ⟨e, ⟨he, ?_⟩, hid⟩
  have hne : ¬ r.event_id = eventId := by simpa using hr.2
  simp [hid, hne]

theorem noOrphan_commit (s : Store) (row : Registration) (event : Event) (rest : List Event)
    (hev : checkEventQuery s row.event_id = event :: rest) (h : NoOrphan s) :
    NoOrphan (updateParticipantsQuery (insertRegistrationQuery s row) row.event_id) := by
  have keep : ∀ e ∈ s.events, ∃ e2 ∈ (updateParticipantsQuery
      (insertRegistrationQuery s row) row.event_id).events, e2.id = e.id := by
    intro e he
    refine ⟨if e.id == row.event_id then
      { e with current_participants := e.current_participants + 1 } else e, ?_, ?_⟩
    · simp only [updateParticipantsQuery, insertRegistrationQuery, List.mem_map]
      exact ⟨e, he, rfl⟩
    · by_cases hc : e.id = row.event_id <;> simp [hc]
  have hmem : event ∈ checkEventQuery s row.event_id := by simp [hev]
  simp only [checkEventQuery, List.mem_filter] at hmem
  have hid : event.id = row.event_id := by simpa using hmem.2
  intro r hr
  simp only [updateParticipantsQuery, insertRegistrationQuery, List.mem_append,
    List.mem_singleton] at hr
  rcases hr with hr | rfl
  · obtain ⟨e, he, heid⟩ := h r hr
    obtain ⟨e2, he2, h2⟩ := keep e he
    exact ⟨e2, he2, h2.trans heid⟩
  · obtain ⟨e2, he2, h2⟩ := keep event hmem.1
    exact ⟨e2, he2, h2.trans hid⟩

theorem noOrphan_step (s : Store) (x : Env × Request) (h : NoOrphan s) :
    NoOrphan (step s x) := by
  obtain ⟨env, req⟩ := x
  cases req with
  | create body =>
    rcases postAdminEvents_store env s body with hs | hs
    · simpa [step, handle, hs] using h
    · simpa [step, handle, hs] using noOrphan_insertEvent s _ h
  | update eventId body =>
    rcases putAdminEvent_store env s eventId body with hs | hs
    · simpa [step, handle, hs] using h
    · simpa [step, handle, hs] using noOrphan_updateEvent s eventId body h
  | delete eventId =>
    rcases deleteAdminEvent_store env s eventId with hs | hs
    · simpa [step, handle, hs] using h
    · simpa [step, handle, hs] using noOrphan_delete s eventId h
  | register eventId body =>
    rcases postRegister_store env s eventId body with hs | ⟨⟨event, rest, hev, _⟩, _, hs⟩
    · simpa [step, handle, hs] using h
    · have := noOrphan_commit s (registrationRow env.insertId eventId body) event rest hev h
      simpa [step, handle, hs] using this

/-- C14: in every store reached from the empty store by a sequence of create, update,
delete and register requests (whatever the store assigns or fails), every
registration row refers to an event that is present. -/
theorem reachable_no_orphan (trace : List (Env × Request)) :
    ∀ r ∈ (run emptyStore trace).registrations,
      ∃ e ∈ (run emptyStore trace).events, e.id = r.event_id :=
  run_invariant NoOrphan noOrphan_step emptyStore trace (by simp [NoOrphan, emptyStore])

/-- C14, on a concrete sequence: after two creations, a registration on each event and
the deletion of the first event, the one remaining row refers to the remaining
event. -/
theorem reachable_no_orphan_witness :
    (run emptyStore sampleTrace).registrations = [registrationRow 8 2 (sampleBody "B" "222")] ∧
    (run emptyStore sampleTrace).events.map (fun e => e.id) = [2] ∧
    ∃ e ∈ (run emptyStore sampleTrace).events,
      e.id = (registrationRow 8 2 (sampleBody "B" "222")).event_id :=
  ⟨by decide, by decide,
    reachable_no_orphan sampleTrace (registrationRow 8 2 (sampleBody "B" "222")) (by decide)⟩

/-! ## Counters and registration rows -/

/-- A property of stores kept by every admitted request holds along every admitted
sequence. -/
theorem run_invariant_ok (ok : Store → Env × Request → Prop) (P : Store → Prop)
    (hstep : ∀ s x, ok s x → P s → P (step s x))
    (s : Store) (trace : List (Env × Request)) (h : P s) (hok : TraceOk ok s trace) :
    P (run s trace) := by
  induction trace generalizing s with
  | nil => exact h
  | cons x xs ih => exact ih (step s x) (hstep s x hok.1 h) hok.2

theorem countersMatch_insertEvent (s : Store) (row : Event) (ho : NoOrphan s)
    (h : CountersMatch s) (hfresh : ∀ e ∈ s.events, e.id ≠ row.id)
    (hzero : row.current_participants = 0) : CountersMatch (insertEventQuery s row) := by
  intro e he
  simp only [insertEventQuery, List.mem_append, List.mem_singleton] at he
  rcases he with he | rfl
  · exact h e he
  · have hcount : registrationCount (insertEventQuery s e) e.id = 0 := by
      simp only [registrationCount, insertEventQuery, List.countP_eq_zero]
      intro r hr hc
      obtain ⟨e2, he2, hid⟩ := ho r hr
      exact hfresh e2 he2 (hid.trans (by simpa using hc))
    rw [hcount, hzero]
    rfl

theorem countersMatch_updateEvent (s : Store) (eventId : Nat) (body : EventBody)
    (h : CountersMatch s) : CountersMatch (updateEventQuery s eventId body) := by
  intro e he
  simp only [updateEventQuery, List.mem_map] at he
  obtain ⟨e0, he0, rfl⟩ := he
  have h0 := h e0 he0
  by_cases hc : e0.id = eventId
  · simpa [hc, updatedRow, registrationCount, updateEventQuery] using h0
  · simpa [hc, registrationCount, updateEventQuery] using h0

theorem countersMatch_delete (s : Store) (eventId : Nat) (h : CountersMatch s) :
    CountersMatch (deleteEventQuery (deleteRegistrationsQuery s eventId) eventId) := by
  intro e he
  simp only [deleteEventQuery, deleteRegistrationsQuery, List.mem_filter] at he
  have hne : ¬ e.id = eventId := by simpa using he.2
  have hcount : registrationCount
      (deleteEventQuery (deleteRegistrationsQuery s eventId) eventId) e.id =
      registrationCount s e.id := by
    simp only [registrationCount, deleteEventQuery, deleteRegistrationsQuery,
      List.countP_filter]
    apply List.countP_congr
    intro r _
    by_cases hr : r.event_id = e.id
    · simp [hr, hne]
    · simp [hr]
  rw [hcount]
  exact h e he.1

theorem registrationCount_commit (s : Store) (row : Registration) (eventId id : Nat) :
    registrationCount (updateParticipantsQuery (insertRegistrationQuery s row) eventId) id =
      registrationCount s id + (if row.event_id = id then 1 else 0) := by
  simp only [registrationCount, updateParticipantsQuery, insertRegistrationQuery,
    List.countP_append, List.countP_cons, List.countP_nil]
  by_cases hc : row.event_id = id <;> simp [hc]

theorem countersMatch_commit (s : Store) (row : Registration) (h : CountersMatch s) :
    CountersMatch (updateParticipantsQuery (insertRegistrationQuery s row) row.event_id) := by
  intro e he
  rw [registrationCount_commit]
  simp only [updateParticipantsQuery, insertRegistrationQuery, List.mem_map] at he
  obtain ⟨e0, he0, rfl⟩ := he
  have h0 := h e0 he0
  by_cases hc : e0.id = row.event_id
  · have hc2 : row.event_id = e0.id := hc.symm
    simp [hc, h0]
  · have hc2 : ¬ row.event_id = e0.id := fun hx => hc hx.symm
    simp [hc, hc2, h0]

theorem countersMatch_step (s : Store) (x : Env × Request) (hfresh : FreshCreate s x)
    (h : NoOrphan s ∧ CountersMatch s) : NoOrphan (step s x) ∧ CountersMatch (step s x) := by
  refine ⟨noOrphan_step s x h.1, ?_⟩
  obtain ⟨env, req⟩ := x
  cases req with
  | create body =>
    rcases postAdminEvents_store env s body with hs | hs
    · simpa [step, handle, hs] using h.2
    · have := countersMatch_insertEvent s (createdRow env.insertId body) h.1 h.2 hfresh rfl
      simpa [step, handle, hs] using this
  | update eventId body =>
    rcases putAdminEvent_store env s eventId body with hs | hs
    · simpa [step, handle, hs] using h.2
    · simpa [step, handle, hs] using countersMatch_updateEvent s eventId body h.2
  | delete eventId =>
    rcases deleteAdminEvent_store env s eventId with hs | hs
    · simpa [step, handle, hs] using h.2
    · simpa [step, handle, hs] using countersMatch_delete s eventId h.2
  | register eventId body =>
    rcases postRegister_store env s eventId body with hs | ⟨_, _, hs⟩
    · simpa [step, handle, hs] using h.2
    · have := countersMatch_commit s (registrationRow env.insertId eventId body) h.2
      simpa [step, handle, hs] using this

/-- C16: in every store reached from the empty store by a sequence of create, update,
delete and register requests in which each created event receives an identity that
no present event carries, the counter of every event equals the number of
registration rows whose `event_id` is the identity of that event. -/
theorem reachable_counters_match (trace : List (Env × Request))
    (hfresh : TraceOk FreshCreate emptyStore trace) :
    ∀ e ∈ (run emptyStore trace).events,
      e.current_participants =
        (((run emptyStore trace).registrations.filter
          (fun r => decide (r.event_id = e.id))).length : Int) := by
  have h := run_invariant_ok FreshCreate (fun s => NoOrphan s ∧ CountersMatch s)
    countersMatch_step emptyStore trace
    (by simp [NoOrphan, CountersMatch, emptyStore]) hfresh
  intro e he
  have hc := h.2 e he
  simp only [registrationCount, List.countP_eq_length_filter] at hc
  rw [hc]
  congr 2

/-- C16, on a concrete sequence: after two creations with fresh identities, a
registration on each event, the deletion of the first event and an update of the
second, the remaining event has counter 1 and one registration row. -/
theorem reachable_counters_match_witness :
    TraceOk FreshCreate emptyStore sampleTrace ∧
    (run emptyStore sampleTrace).events =
      [{ sampleEvent 2 none 1 with name := "Walk" }] ∧
    ({ sampleEvent 2 none 1 with name := "Walk" } : Event).current_participants =
      (((run emptyStore sampleTrace).registrations.filter
        (fun r => decide (r.event_id = 2))).length : Int) :=
  have hfresh : TraceOk FreshCreate emptyStore sampleTrace := by
    simp [TraceOk, FreshCreate, sampleTrace, emptyStore, step, handle]
    decide
  ⟨hfresh, by decide,
    reachable_counters_match sampleTrace hfresh { sampleEvent 2 none 1 with name := "Walk" }
      (by decide)⟩

/-! ## Counters and capacities -/

theorem orNullNum_eq_some (x : Option Int) (m : Int) (h : orNullNum x = some m) :
    x = some m ∧ m ≠ 0 := by
  rw [orNullNum_eq] at h
  by_cases h0 : x = some 0
  · simp [h0] at h
  · rw [if_neg h0] at h
    refine ⟨h, ?_⟩
    rintro rfl
    exact h0 h

theorem capacityInvariant_insertEvent (s : Store) (insertId : Nat) (body : EventBody)
    (h : CapacityInvariant s) (hfresh : ∀ e ∈ s.events, e.id ≠ insertId)
    (hcap : ∀ m ∈ body.max_participants, 0 ≤ m) :
    CapacityInvariant (insertEventQuery s (createdRow insertId body)) := by
  refine ⟨?_, ?_⟩
  · simp only [insertEventQuery, List.map_append, List.map_cons, List.map_nil]
    rw [List.nodup_append]
    refine ⟨h.1, List.nodup_singleton _, ?_⟩
    intro a ha hb
    simp only [List.mem_singleton] at hb
    obtain ⟨e, he, rfl⟩ := List.mem_map.1 ha
    exact hfresh e he hb
  · intro e he m hm
    simp only [insertEventQuery, List.mem_append, List.mem_singleton] at he
    rcases he with he | rfl
    · exact h.2 e he m hm
    · obtain ⟨hx, hne⟩ := orNullNum_eq_some body.max_participants m hm
      exact ⟨hne, hcap m hx⟩

theorem capacityInvariant_updateEvent (s : Store) (eventId : Nat) (body : EventBody)
    (h : CapacityInvariant s)
    (hcap : ∀ m ∈ body.max_participants,
      m = 0 ∨ ∀ e ∈ s.events, e.id = eventId → e.current_participants ≤ m) :
    CapacityInvariant (updateEventQuery s eventId body) := by
  refine ⟨?_, ?_⟩
  · have hids : (updateEventQuery s eventId body).events.map (fun e => e.id) =
        s.events.map (fun e => e.id) := by
      simp only [updateEventQuery, List.map_map]
      apply List.map_congr_left
      intro e _
      by_cases hc : e.id = eventId <;> simp [hc, updatedRow]
    rw [hids]
    exact h.1
  · intro e he m hm
    simp only [updateEventQuery, List.mem_map] at he
    obtain ⟨e0, he0, rfl⟩ := he
    by_cases hc : e0.id = eventId
    · simp only [hc, beq_self_eq_true, if_true] at hm ⊢
      obtain ⟨hx, hne⟩ := orNullNum_eq_some body.max_participants m hm
      refine ⟨hne, ?_⟩
      rcases hcap m hx with h0 | hle
      · exact absurd h0 hne
      · exact hle e0 he0 hc
    · have hb : (e0.id == eventId) = false := by simp [hc]
      simp only [hb] at hm ⊢
      exact h.2 e0 he0 m hm

theorem capacityInvariant_delete (s : Store) (eventId : Nat) (h : CapacityInvariant s) :
    CapacityInvariant (deleteEventQuery (deleteRegistrationsQuery s eventId) eventId) := by
  refine ⟨?_, ?_⟩
  · exact h.1.sublist ((List.filter_sublist _).map _)
  · intro e he m hm
    simp only [deleteEventQuery, deleteRegistrationsQuery, List.mem_filter] at he
    exact h.2 e he.1 m hm

theorem capacityInvariant_commit (s : Store) (row : Registration) (eventId : Nat)
    (event : Event) (rest : List Event)
    (hev : checkEventQuery s eventId = event :: rest) (hfull : eventFull event = false)
    (h : CapacityInvariant s) :
    CapacityInvariant (updateParticipantsQuery (insertRegistrationQuery s row) eventId) := by
  refine ⟨?_, ?_⟩
  · have hids : (updateParticipantsQuery (insertRegistrationQuery s row) eventId).events.map
        (fun e => e.id) = s.events.map (fun e => e.id) := by
      simp only [updateParticipantsQuery, insertRegistrationQuery, List.map_map]
      apply List.map_congr_left
      intro e _
      by_cases hc : e.id = eventId <;> simp [hc]
    rw [hids]
    exact h.1
  · intro e he m hm
    simp only [updateParticipantsQuery, insertRegistrationQuery, List.mem_map] at he
    obtain ⟨e0, he0, rfl⟩ := he
    by_cases hc : e0.id = eventId
    · have hmem : event ∈ checkEventQuery s eventId := by simp [hev]
      simp only [checkEventQuery, List.mem_filter] at hmem
      have hid : event.id = eventId := by simpa using hmem.2
      have hsame : e0 = event :=
        List.inj_on_of_nodup_map h.1 he0 hmem.1 (hc.trans hid.symm)
      subst hsame
      simp only [hc, beq_self_eq_true, if_true] at hm ⊢
      have hm0 : m ∈ e0.max_participants := hm
      obtain ⟨hne, _⟩ := h.2 e0 he0 m hm0
      have hmax : e0.max_participants = some m := hm0
      have hlt : e0.current_participants < m := by
        simp [eventFull, hmax, hne] at hfull
        exact hfull
      exact ⟨hne, by omega⟩
    · have hb : (e0.id == eventId) = false := by simp [hc]
      simp only [hb] at hm ⊢
      exact h.2 e0 he0 m hm

theorem capacityInvariant_step (s : Store) (x : Env × Request) (hok : CapacityKept s x)
    (h : CapacityInvariant s) : CapacityInvariant (step s x) := by
  obtain ⟨env, req⟩ := x
  cases req with
  | create body =>
    rcases postAdminEvents_store env s body with hs | hs
    · simpa [step, handle, hs] using h
    · have := capacityInvariant_insertEvent s env.insertId body h hok.1 hok.2
      simpa [step, handle, hs] using this
  | update eventId body =>
    rcases putAdminEvent_store env s eventId body with hs | hs
    · simpa [step, handle, hs] using h
    · have := capacityInvariant_updateEvent s eventId body h hok
      simpa [step, handle, hs] using this
  | delete eventId =>
    rcases deleteAdminEvent_store env s eventId with hs | hs
    · simpa [step, handle, hs] using h
    · simpa [step, handle, hs] using capacityInvariant_delete s eventId h
  | register eventId body =>
    rcases postRegister_store env s eventId body with hs | ⟨⟨event, rest, hev, hfull⟩, _, hs⟩
    · simpa [step, handle, hs] using h
    · have := capacityInvariant_commit s (registrationRow env.insertId eventId body) eventId
        event rest hev hfull h
      simpa [step, handle, hs] using this

/-- C13, as stated, fails: an event without limit is created, two participants
register, and an update sets its capacity to 1; the store reached holds an event with
`max_participants` 1 and `current_participants` 2. Likewise the creation of an event
with a capacity of -1 gives an event whose counter, 0, is above its capacity. -/
theorem update_puts_counter_above_capacity :
    TraceOk FreshCreate emptyStore overbookTrace ∧
    (run emptyStore overbookTrace).events.map
      (fun e => (e.id, e.max_participants, e.current_participants)) = [(1, some 1, 2)] ∧
    ¬ WithinCapacity (run emptyStore overbookTrace) ∧
    (run emptyStore negativeCapacityTrace).events.map
      (fun e => (e.id, e.max_participants, e.current_participants)) = [(1, some (-1), 0)] ∧
    ¬ WithinCapacity (run emptyStore negativeCapacityTrace) := by
  refine ⟨?_, by decide, by decide, by decide, by decide⟩
  simp [TraceOk, FreshCreate, overbookTrace, emptyStore, step, handle]

/-- C13, amended: in every store reached from the empty store by a sequence of create,
update, delete and register requests in which every created event receives a fresh
identity and no negative capacity, and every update that supplies a capacity other
than 0 supplies one at least as large as the counter of the event it addresses, each
event whose `max_participants` is set has `current_participants <= max_participants`. -/
theorem reachable_within_capacity (trace : List (Env × Request))
    (hok : TraceOk CapacityKept emptyStore trace) :
    ∀ e ∈ (run emptyStore trace).events, ∀ m, e.max_participants = some m →
      e.current_participants ≤ m := by
  have h := run_invariant_ok CapacityKept CapacityInvariant capacityInvariant_step
    emptyStore trace (by simp [CapacityInvariant, emptyStore]) hok
  intro e he m hm
  exact (h.2 e he m hm).2

/-- C13, on a concrete sequence: an event with two places is created, two
registrations succeed and a third is refused, and an update raises the capacity to 5;
the counter, 2, is within the capacity. -/
theorem reachable_within_capacity_witness :
    TraceOk CapacityKept emptyStore cappedTrace ∧
    (run emptyStore cappedTrace).events = [sampleEvent 1 (some 5) 2] ∧
    (sampleEvent 1 (some 5) 2).current_participants ≤ 5 :=
  have hok : TraceOk CapacityKept emptyStore cappedTrace := by
    simp [TraceOk, CapacityKept, cappedTrace, emptyStore, step, handle]
    decide
  ⟨hok, by decide,
    reachable_within_capacity cappedTrace hok (sampleEvent 1 (some 5) 2) (by decide) 5 rfl⟩

/-! ## Searching events -/

theorem lexLe_total (a b : List Nat) : lexLe a b = true ∨ lexLe b a = true := by
  induction a generalizing b with
  | nil => simp [lexLe]
  | cons x xs ih =>
    cases b with
    | nil => simp [lexLe]
    | cons y ys =>
      simp only [lexLe, Bool.or_eq_true, decide_eq_true_eq, Bool.and_eq_true, beq_iff_eq]
      rcases Nat.lt_trichotomy x y with h | h | h
      · exact Or.inl (Or.inl h)
      · rcases ih ys with h2 | h2
        · exact Or.inl (Or.inr ⟨h, h2⟩)
        · exact Or.inr (Or.inr ⟨h.symm, h2⟩)
      · exact Or.inr (Or.inl h)

theorem lexLe_trans (a b c : List Nat) (hab : lexLe a b = true) (hbc : lexLe b c = true) :
    lexLe a c = true := by
  induction a generalizing b c with
  | nil => simp [lexLe]
  | cons x xs ih =>
    cases b with
    | nil => simp [lexLe] at hab
    | cons y ys =>
      cases c with
      | nil => simp [lexLe] at hbc
      | cons z zs =>
        simp only [lexLe, Bool.or_eq_true, decide_eq_true_eq, Bool.and_eq_true,
          beq_iff_eq] at hab hbc ⊢
        rcases hab with h1 | ⟨h1, h1r⟩
        · rcases hbc with h2 | ⟨h2, _⟩
          · exact Or.inl (by omega)
          · exact Or.inl (by omega)
        · rcases hbc with h2 | ⟨h2, h2r⟩
          · exact Or.inl (by omega)
          · exact Or.inr ⟨by omega, ih ys zs h1r h2r⟩

theorem dateLe_isTotal : IsTotal Event dateLe :=
  ⟨fun _ _ => lexLe_total _ _⟩

theorem dateLe_isTrans : IsTrans Event dateLe :=
  ⟨fun _ _ _ hab hbc => lexLe_trans _ _ _ hab hbc⟩

theorem likeTokens_literal (p rest : List Char)
    (hlit : ∀ c ∈ p, c ≠ '%' ∧ c ≠ '_' ∧ c ≠ escapeChar) :
    likeTokens false (p ++ rest) = p.map .lit ++ likeTokens false rest := by
  induction p with
  | nil => rfl
  | cons c p ih =>
    obtain ⟨h1, h2, h3⟩ := hlit c (by simp)
    simp only [List.cons_append, likeTokens, h1, h2, h3, if_false, List.map_cons,
      List.append_eq]
    rw [ih (fun d hd => hlit d (by simp [hd]))]

theorem matchTokens_literal_then_any (p v : List Char) :
    matchTokens (p.map .lit ++ [.anyRun]) v = true ↔ p <+: v := by
  induction p generalizing v with
  | nil =>
    simp only [List.map_nil, List.nil_append, matchTokens, List.any_eq_true, List.mem_tails,
      List.nil_prefix, iff_true]
    exact ⟨[], List.nil_suffix, rfl⟩
  | cons c p ih =>
    cases v with
    | nil => simp [matchTokens]
    | cons d t =>
      simp only [List.map_cons, List.cons_append, matchTokens, Bool.and_eq_true, beq_iff_eq,
        List.append_eq, ih t, List.cons_prefix_cons]

theorem likeMatch_contains (l v : List Char)
    (hlit : ∀ c ∈ l, c ≠ '%' ∧ c ≠ '_' ∧ c ≠ escapeChar) :
    likeMatch ('%' :: (l ++ ['%'])) v = true ↔ l <:+: v := by
  have htok : likeTokens false ('%' :: (l ++ ['%'])) =
      .anyRun :: (l.map .lit ++ [.anyRun]) := by
    have h1 : likeTokens false ('%' :: (l ++ ['%'])) =
        .anyRun :: likeTokens false (l ++ ['%']) := rfl
    rw [h1, likeTokens_literal l _ hlit]
    rfl
  rw [likeMatch, htok]
  simp only [matchTokens, List.any_eq_true, List.mem_tails,
    matchTokens_literal_then_any, List.infix_iff_prefix_suffix]
  constructor
  · rintro ⟨t, ht, hp⟩
    exact ⟨t, hp, ht⟩
  · rintro ⟨t, hp, ht⟩
    exact ⟨t, ht, hp⟩

theorem pattern_toList (l : String) :
    ("%" ++ l ++ "%").toList = '%' :: (l.toList ++ ['%']) := by
  cases l
  rfl

theorem searchConditions_all (q : SearchQuery) (e : Event)
    (hlit : ∀ l, q.location = some l → Literal l) :
    (searchConditions q).all (fun c => c e) = true ↔
      (∀ d, q.date = some d → d ≠ "" → e.date = d) ∧
      (∀ l, q.location = some l → l ≠ "" → l.toList <:+: e.location.toList) ∧
      (∀ c, q.category = some c → c ≠ "" → e.category = c) := by
  have hdate : ((if truthyStr q.date then [fun e : Event => e.date == q.date.getD ""]
      else []).all (fun c => c e) = true) ↔ ∀ d, q.date = some d → d ≠ "" → e.date = d := by
    cases hq : q.date with
    | none => simp [truthyStr]
    | some d => by_cases hd : d = "" <;> simp [truthyStr, hd]
  have hcat : ((if truthyStr q.category then [fun e : Event => e.category == q.category.getD ""]
      else []).all (fun c => c e) = true) ↔
      ∀ c, q.category = some c → c ≠ "" → e.category = c := by
    cases hq : q.category with
    | none => simp [truthyStr]
    | some d => by_cases hd : d = "" <;> simp [truthyStr, hd]
  have hloc : ((if truthyStr q.location then
      [fun e : Event =>
        likeMatch ("%" ++ q.location.getD "" ++ "%").toList e.location.toList]
      else []).all (fun c => c e) = true) ↔
      ∀ l, q.location = some l → l ≠ "" → l.toList <:+: e.location.toList := by
    cases hq : q.location with
    | none => simp [truthyStr]
    | some l =>
      by_cases hl : l = ""
      · simp [truthyStr, hl]
      · have ht : truthyStr (some l) = true := by simp [truthyStr, hl]
        have hm := likeMatch_contains l.toList e.location.toList (hlit l hq)
        rw [if_pos ht]
        simp only [List.all_cons, List.all_nil, Bool.and_true, Option.getD_some,
          pattern_toList, hm]
        constructor
        · intro h l2 hl2 _
          cases hl2
          exact h
        · intro h
          exact h l rfl hl
  simp only [searchConditions, List.all_append, Bool.and_eq_true, hdate, hloc, hcat]
  tauto

/-- C11, at the failing input: the location strings `_` and `%` are read as `LIKE`
wildcards, not literally. No event of the store has an underscore or a percent sign
in its location, yet a search for either returns all four events, and a search for
`t_wn` returns the event in the town hall. -/
theorem search_location_reads_wildcards :
    (∀ e ∈ searchStore.events, '_' ∉ e.location.toList ∧ '%' ∉ e.location.toList) ∧
    (match getEventsSearch false searchStore ⟨none, some "_", none⟩ with
      | .rows status events => (status, events.map (fun e => e.id))
      | .error status _ => (status, [])) = (200, [4, 3, 2, 1]) ∧
    (match getEventsSearch false searchStore ⟨none, some "%", none⟩ with
      | .rows status events => (status, events.map (fun e => e.id))
      | .error status _ => (status, [])) = (200, [4, 3, 2, 1]) ∧
    (match getEventsSearch false searchStore ⟨none, some "t_wn", none⟩ with
      | .rows status events => (status, events.map (fun e => e.location))
      | .error status _ => (status, [])) = (200, ["town hall"]) := by
  decide

/-- When the location searched for holds none of the characters that `LIKE` reads
specially, and the store reports no error, the search returns exactly the events
that satisfy every supplied filter (date equal, location containing the string,
category equal; absent and empty filters ignored), ordered by date ascending. -/
theorem search_without_wildcards (s : Store) (q : SearchQuery)
    (hlit : ∀ l, q.location = some l → Literal l) :
    getEventsSearch false s q = .rows 200 (searchQuery s q) ∧
    (∀ e, e ∈ searchQuery s q ↔
      e ∈ s.events ∧
      (∀ d, q.date = some d → d ≠ "" → e.date = d) ∧
      (∀ l, q.location = some l → l ≠ "" → l.toList <:+: e.location.toList) ∧
      (∀ c, q.category = some c → c ≠ "" → e.category = c)) ∧
    (searchQuery s q).Sorted dateLe ∧
    (searchQuery s q).Perm (s.events.filter (fun e => (searchConditions q).all (fun c => c e))) := by
  haveI := dateLe_isTotal
  haveI := dateLe_isTrans
  refine ⟨rfl, ?_, List.sorted_insertionSort dateLe _, List.perm_insertionSort dateLe _⟩
  intro e
  rw [searchQuery, (List.perm_insertionSort dateLe _).mem_iff, List.mem_filter,
    searchConditions_all q e hlit]

/-- The search scenario of the specification: category education and location park,
no date, return the two education events located in a park, earlier date first. -/
theorem search_without_wildcards_scenario :
    getEventsSearch false searchStore ⟨none, some "park", some "education"⟩ =
      .rows 200 [listedEvent 4 "education" "2025-03-20" "north park east",
                 listedEvent 1 "education" "2025-11-02" "city park"] ∧
    (searchQuery searchStore ⟨none, some "park", some "education"⟩).Sorted dateLe :=
  ⟨by decide,
    (search_without_wildcards searchStore ⟨none, some "park", some "education"⟩
      (by intro l hl; cases hl; decide)).2.2.1⟩

/-! ## Two register requests in flight -/

/-- Run alone and without store error, the six round-trips of a register request give
the store and the answer of the handler. -/
theorem runRegister_alone (s : Store) (eventId : Nat) (body : RegisterBody) (insertId : Nat) :
    runRegister 6 s (startRegister eventId body insertId) =
      ((postRegister (Env.ok insertId) s eventId body).store,
        { eventId := eventId, body := body, insertId := insertId,
          stage := .answered (postRegister (Env.ok insertId) s eventId body).response }) := by
  by_cases hn : truthyStr body.name = true
  swap
  · simp [runRegister, stepRegister, startRegister, postRegister, hn]
  by_cases hp : truthyStr body.phone = true
  swap
  · simp [runRegister, stepRegister, startRegister, postRegister, hp]
  cases hev : checkEventQuery s eventId with
  | nil => simp [runRegister, stepRegister, startRegister, postRegister, hn, hp, hev, Env.ok]
  | cons event rest =>
    by_cases hf : eventFull event = true
    · simp [runRegister, stepRegister, startRegister, postRegister, hn, hp, hev, hf, Env.ok]
    cases hd : checkRegistrationQuery s eventId (body.phone.getD "") with
    | cons r rs =>
      simp [runRegister, stepRegister, startRegister, postRegister, hn, hp, hev, hf, hd,
        Env.ok]
    | nil =>
      simp [runRegister, stepRegister, startRegister, postRegister, hn, hp, hev, hf, hd,
        Env.ok]

/-- C15, at the failing inputs. With one place left on event 1 and the round-trips of
two register requests taking turns, both requests are answered 200, two rows are
inserted and the counter ends at 2 with a capacity of 1. With the same phone on both
requests, both are answered 200 and two rows for (event 1, phone 111) exist. When
the first request completes before the second starts, the second is rejected. -/
theorem concurrent_registers_both_succeed :
    (interleave lastPlaceRace alternating).first.stage =
      .answered ⟨200, .registered "注册成功！" 7⟩ ∧
    (interleave lastPlaceRace alternating).second.stage =
      .answered ⟨200, .registered "注册成功！" 8⟩ ∧
    (interleave lastPlaceRace alternating).store.events = [sampleEvent 1 (some 1) 2] ∧
    (interleave lastPlaceRace alternating).store.registrations.length = 2 ∧
    (interleave samePhoneRace alternating).first.stage =
      .answered ⟨200, .registered "注册成功！" 7⟩ ∧
    (interleave samePhoneRace alternating).second.stage =
      .answered ⟨200, .registered "注册成功！" 8⟩ ∧
    (checkRegistrationQuery (interleave samePhoneRace alternating).store 1 "111").length = 2 ∧
    (interleave lastPlaceRace oneAfterTheOther).second.stage =
      .answered ⟨400, .error "活动名额已满"⟩ ∧
    (interleave samePhoneRace oneAfterTheOther).second.stage =
      .answered ⟨400, .error "您已经注册过此活动"⟩ := by
  decide

end CharityHouse
